import Mathlib

/-!
# Topex: sign-in and sign-up pages

A shallow embedding of the logic of `src/pages/LoginPage.jsx` and
`src/pages/RegisterPage.jsx`: form validation, per-field error clearing and the
submission controllers, followed by theorems about them.

Conventions of the embedding
* a JavaScript string is the list of its UTF-16 code units (`JSString`), so
  `.length`, `.trim()` and the regular expression work on code units as they do
  in the engine;
* a JavaScript object used as a mapping (`errors`) is an association list in
  insertion order over the keys the pages use;
* `handleSubmit` is a function from the values captured by the handler and the
  responses of its collaborators to the ordered list of effects it performs;
  the page state after the handler is obtained by applying the state setters
  of that list in order.
-/

set_option autoImplicit false

namespace Topex

/-! ## Strings -/

/-- A JavaScript string, as its sequence of UTF-16 code units. -/
abbrev JSString := List Nat

/-- UTF-16 code units of one Unicode scalar value. -/
def utf16 (c : Char) : List Nat :=
  if c.toNat < 0x10000 then [c.toNat]
  else [0xD800 + (c.toNat - 0x10000) / 0x400, 0xDC00 + (c.toNat - 0x10000) % 0x400]

/-- The JavaScript string written by a literal. -/
def js (s : String) : JSString := (s.toList.map utf16).flatten

/-- Code units matched by `\s` and stripped by `String.prototype.trim`
(ECMAScript WhiteSpace and LineTerminator). -/
def isWhiteSpace (c : Nat) : Bool :=
  c == 0x09 || c == 0x0A || c == 0x0B || c == 0x0C || c == 0x0D || c == 0x20 ||
  c == 0xA0 || c == 0x1680 || (0x2000 ≤ c && c ≤ 0x200A) || c == 0x2028 ||
  c == 0x2029 || c == 0x202F || c == 0x205F || c == 0x3000 || c == 0xFEFF

/-- Method `String.prototype.trimStart`. -/
def trimStart (s : JSString) : JSString := s.dropWhile isWhiteSpace

/-- Method `String.prototype.trimEnd`. -/
def trimEnd (s : JSString) : JSString := (s.reverse.dropWhile isWhiteSpace).reverse

/-- Method `String.prototype.trim`. -/
def trim (s : JSString) : JSString := trimEnd (trimStart s)

/-- ToBoolean on a string: only the empty string is falsy. -/
def truthy (s : JSString) : Bool := !s.isEmpty

/-- ToBoolean on a possibly `undefined` string (a property read). -/
def truthy? : Option JSString → Bool
  | none => false
  | some s => truthy s

/-! ## Regular expressions -/

/-- The fragment of regular expressions the page uses: character sets,
concatenation and repetition (with the usual unit and zero). -/
inductive RegExp where
  | never : RegExp
  | empty : RegExp
  | set (p : Nat → Bool) : RegExp
  | seq (a b : RegExp) : RegExp
  | alt (a b : RegExp) : RegExp
  | star (a : RegExp) : RegExp

namespace RegExp

/-- The quantifier `+`. -/
def plus (a : RegExp) : RegExp := seq a (star a)

/-- A single literal code unit. -/
def chr (c : Nat) : RegExp := set (fun d => d == c)

/-- Does the expression match the empty string? -/
def nullable : RegExp → Bool
  | never => false
  | empty => true
  | set _ => false
  | seq a b => nullable a && nullable b
  | alt a b => nullable a || nullable b
  | star _ => true

/-- The expression matching what is left after reading `c`. -/
def deriv : RegExp → Nat → RegExp
  | never, _ => never
  | empty, _ => never
  | set p, c => if p c then empty else never
  | seq a b, c =>
      if nullable a then alt (seq (deriv a c) b) (deriv b c) else seq (deriv a c) b
  | alt a b, c => alt (deriv a c) (deriv b c)
  | star a, c => seq (deriv a c) (star a)

/-- Method `RegExp.prototype.test` for a pattern anchored by `^` and `$`: the whole
string matches. -/
def test (r : RegExp) (s : JSString) : Bool := nullable (s.foldl deriv r)

/-- The strings an expression matches. -/
def Matches : RegExp → List Nat → Prop
  | never, _ => False
  | empty, s => s = []
  | set p, s => ∃ c, s = [c] ∧ p c = true
  | seq a b, s => ∃ u v, s = u ++ v ∧ Matches a u ∧ Matches b v
  | alt a b, s => Matches a s ∨ Matches b s
  | star a, s => ∃ L : List (List Nat), s = L.flatten ∧ ∀ u ∈ L, Matches a u

end RegExp

/-- The class `[^\s@]`. -/
def notSpaceNorAt (c : Nat) : Bool := !(isWhiteSpace c || c == 0x40)

/-- The pattern `/^[^\s@]+@[^\s@]+\.[^\s@]+$/` of `validateForm`. -/
def emailPattern : RegExp :=
  .seq (.plus (.set notSpaceNorAt))
    (.seq (.chr 0x40)
      (.seq (.plus (.set notSpaceNorAt))
        (.seq (.chr 0x2E) (.plus (.set notSpaceNorAt)))))

/-! ## The error mapping -/

/-- Property names of the `errors` object: the `name` attributes of the inputs
of the two forms and the synthetic `submit`. -/
inductive Key where
  | fullName | email | phone | password | confirmPassword | submit
  deriving DecidableEq, Repr

/-- The `errors` object: own properties in insertion order. -/
abbrev Errors := List (Key × JSString)

namespace Errors

/-- Property read `o[k]` (`none` is `undefined`). -/
def get (o : Errors) (k : Key) : Option JSString := List.lookup k o

/-- Property write `o[k] = v`: overwrite in place, or append a new property. -/
def set (o : Errors) (k : Key) (v : JSString) : Errors :=
  if o.any (fun e => e.1 == k) then o.map (fun e => if e.1 = k then (k, v) else e)
  else o ++ [(k, v)]

/-- Function `Object.keys(o)`. -/
def keys (o : Errors) : List Key := o.map Prod.fst

end Errors

/-- The translation function `t` of the language context (not part of the
pages): message key to localized message. -/
abbrev Translate := String → JSString

/-! ## Collaborators -/

/-- The user object of the identity provider (`data.user`); only `id` is read. -/
structure User where
  id : JSString
  deriving DecidableEq, Repr

/-- An error reported by the identity provider (`error`, `authError`). -/
structure AuthError where
  message : JSString
  deriving DecidableEq, Repr

/-- The resolved value `{ data: { user }, error }` of `signInWithPassword` and
`signUp`. -/
structure AuthResponse where
  user : Option User
  error : Option AuthError
  deriving DecidableEq, Repr

/-- A value thrown by a collaborator (a rejected promise or a throwing
callback). -/
structure Thrown where
  value : JSString
  deriving DecidableEq, Repr

/-- The row read by `select('role')`; `role` may be null. -/
structure Profile where
  role : Option JSString
  deriving DecidableEq, Repr

/-- An entry of `ROLE_PERMISSIONS`; only `canAccessAdmin` is read, by its
truthiness. -/
structure Permissions where
  canAccessAdmin : Bool
  deriving DecidableEq, Repr

/-- The table `ROLE_PERMISSIONS` of the authentication context (not part of
the pages): `none` where the table has no entry for the role. -/
abbrev RolePermissions := JSString → Option Permissions

/-- The constants `ROLES` of the authentication context (not part of the
pages); only `STUDENT` is read. -/
structure Roles where
  STUDENT : JSString

/-- Arguments the handlers pass to `onNavigate`. -/
inductive Destination where
  | home | admin
  deriving DecidableEq, Repr

/-- The object inserted into `profiles` by the register page. -/
structure ProfileRecord where
  user_id : JSString
  full_name : JSString
  email : JSString
  phone : JSString
  role : JSString
  subject : Option JSString
  rating : Option Int
  income : Option Int
  activity_points : Option Int
  attendance_points : Option Int
  deriving DecidableEq, Repr

/-- What a handler does, in order: state setters, calls to collaborators and
timers. `setTimeout d ms` is a timer of `ms` milliseconds whose callback
invokes `onNavigate d`. -/
inductive Effect where
  | preventDefault
  | setErrors (errors : Errors)
  | setLoading (loading : Bool)
  | setSuccessMessage (message : JSString)
  | signInWithPassword (email password : JSString)
  | signUp (email password : JSString)
  | selectRole (userId : JSString)
  | insertProfile (profileData : ProfileRecord)
  | onLogin (user : User)
  | setTimeout (onNavigate : Destination) (ms : Nat)
  deriving DecidableEq, Repr

/-- How a `try` block is left. -/
inductive Completion where
  | normal
  | returned
  | threw (e : Thrown)
  deriving DecidableEq, Repr

/-! ## LoginPage.jsx -/

namespace LoginPage

/-- The `formData` of the login page. -/
structure FormData where
  email : JSString
  password : JSString
  deriving DecidableEq, Repr

/-- The `name` attributes of the inputs `handleChange` is attached to. -/
inductive Field where
  | email | password
  deriving DecidableEq, Repr

/-- The property name of a field. -/
def Field.key : Field → Key
  | .email => .email
  | .password => .password

/-- Read `formData[name]`. -/
def FormData.get (d : FormData) : Field → JSString
  | .email => d.email
  | .password => d.password

/-- The object `{ ...prev, [name]: value }`. -/
def FormData.set (d : FormData) (name : Field) (value : JSString) : FormData :=
  match name with
  | .email => { d with email := value }
  | .password => { d with password := value }

/-- The component state the handlers read or write (`showPassword` is
presentation only). -/
structure State where
  formData : FormData
  errors : Errors
  loading : Bool
  deriving DecidableEq, Repr

/-- The state of `useState` at mount. -/
def State.initial : State :=
  { formData := { email := [], password := [] }, errors := [], loading := false }

/-- Source `handleChange` (LoginPage.jsx 19-31). -/
def handleChange (st : State) (name : Field) (value : JSString) : State :=
  let st1 := { st with formData := st.formData.set name value }
  if truthy? (st.errors.get name.key) then
    { st1 with errors := st1.errors.set name.key [] }
  else st1

/-- Responses of the collaborators of the login page: the identity provider,
the profile store and the host callback. Each may return or throw. -/
structure Env where
  signInWithPassword : JSString → JSString → Except Thrown AuthResponse
  selectRole : JSString → Except Thrown (Option Profile)
  onLogin : User → Except Thrown Unit

/-- The argument of `onNavigate` in the timer callback (LoginPage.jsx 72-78). -/
def timerDestination (ROLE_PERMISSIONS : RolePermissions) (profile : Option Profile) :
    Destination :=
  let role : Option JSString := profile.bind (fun p => p.role)
  if truthy? role &&
      (match role.bind ROLE_PERMISSIONS with
        | some perms => perms.canAccessAdmin
        | none => false) then .admin
  else .home

/-- The validation at the head of `handleSubmit` (LoginPage.jsx 35-43). -/
def newErrors (t : Translate) (formData : FormData) : Errors :=
  let newErrors : Errors := []
  let newErrors :=
    if !truthy (trim formData.email) then newErrors.set .email (t "register.emailError")
    else newErrors
  let newErrors :=
    if !truthy formData.password then newErrors.set .password (t "register.passwordError")
    else newErrors
  newErrors

/-- The body of the `try` block of `handleSubmit` (LoginPage.jsx 52-79). -/
def tryBlock (t : Translate) (ROLE_PERMISSIONS : RolePermissions) (env : Env)
    (formData : FormData) : List Effect × Completion :=
  let call := Effect.signInWithPassword formData.email formData.password
  match env.signInWithPassword formData.email formData.password with
  | .error e => ([call], .threw e)
  | .ok resp =>
    match resp.error with
    | some _ =>
      ([call, .setErrors (Errors.set [] .submit (t "login.error")), .setLoading false],
        .returned)
    | none =>
      match resp.user with
      | none => ([call], .normal)
      | some user =>
        match env.selectRole user.id with
        | .error e => ([call, .selectRole user.id], .threw e)
        | .ok profile =>
          match env.onLogin user with
          | .error e => ([call, .selectRole user.id, .onLogin user], .threw e)
          | .ok _ =>
            ([call, .selectRole user.id, .onLogin user,
              .setTimeout (timerDestination ROLE_PERMISSIONS profile) 500], .normal)

/-- The `catch` clause of `handleSubmit` (LoginPage.jsx 80-82). -/
def catchBlock (t : Translate) : Completion → List Effect
  | .threw _ => [.setErrors (Errors.set [] .submit (t "register.error"))]
  | _ => []

/-- Source `handleSubmit` (LoginPage.jsx 33-85): the effects it performs, in
order. -/
def handleSubmit (t : Translate) (ROLE_PERMISSIONS : RolePermissions) (env : Env)
    (formData : FormData) : List Effect :=
  let newErrors := newErrors t formData
  if newErrors.keys.length > 0 then
    [.preventDefault, .setErrors newErrors]
  else
    let r := tryBlock t ROLE_PERMISSIONS env formData
    [.preventDefault, .setLoading true] ++ r.1 ++ catchBlock t r.2 ++ [.setLoading false]

/-- A state setter applied to the state; other effects leave it alone. -/
def State.apply (st : State) : Effect → State
  | .setErrors errors => { st with errors := errors }
  | .setLoading loading => { st with loading := loading }
  | _ => st

/-- The state once the handler has finished. -/
def submit (t : Translate) (ROLE_PERMISSIONS : RolePermissions) (env : Env) (st : State) :
    State :=
  (handleSubmit t ROLE_PERMISSIONS env st.formData).foldl State.apply st

/-- States reachable from mount by edits and submissions. -/
inductive Reachable (t : Translate) (ROLE_PERMISSIONS : RolePermissions) : State → Prop
  | initial : Reachable t ROLE_PERMISSIONS State.initial
  | change {st : State} (name : Field) (value : JSString) :
      Reachable t ROLE_PERMISSIONS st →
      Reachable t ROLE_PERMISSIONS (handleChange st name value)
  | submit {st : State} (env : Env) :
      Reachable t ROLE_PERMISSIONS st →
      Reachable t ROLE_PERMISSIONS (submit t ROLE_PERMISSIONS env st)

end LoginPage

/-! ## RegisterPage.jsx -/

namespace RegisterPage

/-- The `formData` of the register page. -/
structure FormData where
  fullName : JSString
  email : JSString
  phone : JSString
  password : JSString
  confirmPassword : JSString
  deriving DecidableEq, Repr

/-- The `name` attributes of the inputs `handleChange` is attached to. -/
inductive Field where
  | fullName | email | phone | password | confirmPassword
  deriving DecidableEq, Repr

/-- The property name of a field. -/
def Field.key : Field → Key
  | .fullName => .fullName
  | .email => .email
  | .phone => .phone
  | .password => .password
  | .confirmPassword => .confirmPassword

/-- Read `formData[name]`. -/
def FormData.get (d : FormData) : Field → JSString
  | .fullName => d.fullName
  | .email => d.email
  | .phone => d.phone
  | .password => d.password
  | .confirmPassword => d.confirmPassword

/-- The object `{ ...prev, [name]: value }`. -/
def FormData.set (d : FormData) (name : Field) (value : JSString) : FormData :=
  match name with
  | .fullName => { d with fullName := value }
  | .email => { d with email := value }
  | .phone => { d with phone := value }
  | .password => { d with password := value }
  | .confirmPassword => { d with confirmPassword := value }

/-- The component state the handlers read or write (`showPassword` and
`showConfirm` are presentation only). -/
structure State where
  formData : FormData
  errors : Errors
  loading : Bool
  successMessage : JSString
  deriving DecidableEq, Repr

/-- The state of `useState` at mount. -/
def State.initial : State :=
  { formData := { fullName := [], email := [], phone := [], password := [],
                  confirmPassword := [] },
    errors := [], loading := false, successMessage := [] }

/-- The mapping built by `validateForm` (RegisterPage.jsx 25-45). -/
def newErrors (t : Translate) (formData : FormData) : Errors :=
  let newErrors : Errors := []
  let newErrors :=
    if !truthy (trim formData.fullName) then newErrors.set .fullName (t "register.nameError")
    else newErrors
  let newErrors :=
    if !truthy (trim formData.email) then newErrors.set .email (t "register.emailError")
    else if !emailPattern.test formData.email then
      newErrors.set .email (t "register.emailInvalid")
    else newErrors
  let newErrors :=
    if !truthy (trim formData.phone) then newErrors.set .phone (t "register.phoneError")
    else newErrors
  let newErrors :=
    if !truthy formData.password then newErrors.set .password (t "register.passwordError")
    else if formData.password.length < 6 then
      newErrors.set .password (t "register.passwordShort")
    else newErrors
  let newErrors :=
    if formData.password ≠ formData.confirmPassword then
      newErrors.set .confirmPassword (t "register.passwordMatch")
    else newErrors
  newErrors

/-- Source `validateForm` (RegisterPage.jsx 24-49): its effect and its result. -/
def validateForm (t : Translate) (formData : FormData) : List Effect × Bool :=
  let newErrors := newErrors t formData
  ([.setErrors newErrors], newErrors.keys.length == 0)

/-- Source `handleChange` (RegisterPage.jsx 51-57). -/
def handleChange (st : State) (name : Field) (value : JSString) : State :=
  let st1 := { st with formData := st.formData.set name value }
  if truthy? (st.errors.get name.key) then
    { st1 with errors := st1.errors.set name.key [] }
  else st1

/-- Responses of the collaborators of the register page: the identity
provider, the profile store and the optional host callback. Each may return or
throw; the value the insert resolves to is not read. -/
structure Env where
  signUp : JSString → JSString → Except Thrown AuthResponse
  insertProfile : ProfileRecord → Except Thrown Unit
  onLogin : Option (User → Except Thrown Unit)

/-- The object `profileData` (RegisterPage.jsx 78-89). -/
def profileData (ROLES : Roles) (formData : FormData) (user : User) : ProfileRecord :=
  { user_id := user.id
    full_name := formData.fullName
    email := formData.email
    phone := formData.phone
    role := ROLES.STUDENT
    subject := none
    rating := none
    income := none
    activity_points := none
    attendance_points := none }

/-- The body of the `try` block of `handleSubmit` (RegisterPage.jsx 66-100). -/
def tryBlock (t : Translate) (ROLES : Roles) (env : Env) (formData : FormData) :
    List Effect × Completion :=
  let call := Effect.signUp formData.email formData.password
  match env.signUp formData.email formData.password with
  | .error e => ([call], .threw e)
  | .ok resp =>
    match resp.error with
    | some authError =>
      ([call, .setErrors (Errors.set [] .submit authError.message), .setLoading false],
        .returned)
    | none =>
      match resp.user with
      | none => ([call], .normal)
      | some user =>
        let profileData := profileData ROLES formData user
        match env.insertProfile profileData with
        | .error e => ([call, .insertProfile profileData], .threw e)
        | .ok _ =>
          let success := Effect.setSuccessMessage (t "register.success")
          match env.onLogin with
          | none =>
            ([call, .insertProfile profileData, success, .setTimeout .home 1500], .normal)
          | some onLogin =>
            match onLogin user with
            | .error e =>
              ([call, .insertProfile profileData, success, .onLogin user], .threw e)
            | .ok _ =>
              ([call, .insertProfile profileData, success, .onLogin user,
                .setTimeout .home 1500], .normal)

/-- The `catch` clause of `handleSubmit` (RegisterPage.jsx 101-103). -/
def catchBlock (t : Translate) : Completion → List Effect
  | .threw _ => [.setErrors (Errors.set [] .submit (t "register.error"))]
  | _ => []

/-- Source `handleSubmit` (RegisterPage.jsx 59-106): the effects it performs,
in order. -/
def handleSubmit (t : Translate) (ROLES : Roles) (env : Env) (formData : FormData) :
    List Effect :=
  let v := validateForm t formData
  if !v.2 then
    [.preventDefault] ++ v.1
  else
    let r := tryBlock t ROLES env formData
    [.preventDefault] ++ v.1 ++ [.setLoading true] ++ r.1 ++ catchBlock t r.2 ++
      [.setLoading false]

/-- A state setter applied to the state; other effects leave it alone. -/
def State.apply (st : State) : Effect → State
  | .setErrors errors => { st with errors := errors }
  | .setLoading loading => { st with loading := loading }
  | .setSuccessMessage message => { st with successMessage := message }
  | _ => st

/-- The state once the handler has finished. -/
def submit (t : Translate) (ROLES : Roles) (env : Env) (st : State) : State :=
  (handleSubmit t ROLES env st.formData).foldl State.apply st

/-- States reachable from mount by edits and submissions. -/
inductive Reachable (t : Translate) (ROLES : Roles) : State → Prop
  | initial : Reachable t ROLES State.initial
  | change {st : State} (name : Field) (value : JSString) :
      Reachable t ROLES st → Reachable t ROLES (handleChange st name value)
  | submit {st : State} (env : Env) :
      Reachable t ROLES st → Reachable t ROLES (submit t ROLES env st)

end RegisterPage

/-! ## Vocabulary of the specification -/

/-- Empty or whitespace-only: every code unit of the string is white space. -/
def Blank (s : JSString) : Prop := ∀ c ∈ s, isWhiteSpace c = true

instance (s : JSString) : Decidable (Blank s) := by
  unfold Blank; infer_instance

/-- The `local@domain.tld` shape in the words of the specification: no white
space anywhere, exactly one `@`, something before the `@`, and after the `@` a
`.` with something before it and something after it. -/
def LocalDomainTld (s : JSString) : Prop :=
  (∀ c ∈ s, isWhiteSpace c = false) ∧
  s.count 0x40 = 1 ∧
  ∃ loc dom : JSString, s = loc ++ 0x40 :: dom ∧ loc ≠ [] ∧
    ∃ d tld : JSString, dom = d ++ 0x2E :: tld ∧ d ≠ [] ∧ tld ≠ []

/-- The messages the login page sets for a key (LoginPage.jsx 38, 42, 58,
81). -/
def LoginPage.IsMessage (t : Translate) : Key → JSString → Prop
  | .email, v => v = t "register.emailError"
  | .password, v => v = t "register.passwordError"
  | .submit, v => v = t "login.error" ∨ v = t "register.error"
  | _, _ => False

/-- The messages the register page sets for a key (RegisterPage.jsx 28-44, 72,
102); `submit` shows the message of the provider as it is, so any string. -/
def RegisterPage.IsMessage (t : Translate) : Key → JSString → Prop
  | .fullName, v => v = t "register.nameError"
  | .email, v => v = t "register.emailError" ∨ v = t "register.emailInvalid"
  | .phone, v => v = t "register.phoneError"
  | .password, v => v = t "register.passwordError" ∨ v = t "register.passwordShort"
  | .confirmPassword, v => v = t "register.passwordMatch"
  | .submit, _ => True

/-- Is the effect a timer, that is a scheduled navigation? -/
def Effect.isSetTimeout : Effect → Bool
  | .setTimeout _ _ => true
  | _ => false

/-- Is the effect a call of the host callback `onLogin`? -/
def Effect.isOnLogin : Effect → Bool
  | .onLogin _ => true
  | _ => false

/-- Is the effect a call of the identity provider? -/
def Effect.isProviderCall : Effect → Bool
  | .signInWithPassword _ _ => true
  | .signUp _ _ => true
  | _ => false

/-- A delayed navigation was scheduled by the handler. -/
def navigationScheduled (effects : List Effect) : Bool := effects.any Effect.isSetTimeout

/-- The login notification was made by the handler. -/
def loginNotified (effects : List Effect) : Bool := effects.any Effect.isOnLogin

/-- A submit error is set in the error mapping. -/
def hasSubmitError (errors : Errors) : Bool := (errors.get Key.submit).isSome

/-! ## Sample inputs

Concrete collaborators on which the theorems below are instantiated. -/

/-- A translation table that answers every key with the key itself. -/
def sampleT : Translate := js

/-- A role table with an administrator and a student. -/
def sampleRolePermissions : RolePermissions := fun role =>
  if role = js "ADMIN" then some { canAccessAdmin := true }
  else if role = js "STUDENT" then some { canAccessAdmin := false }
  else none

/-- Role constants matching `sampleRolePermissions`. -/
def sampleRoles : Roles := { STUDENT := js "STUDENT" }

/-- A login in which the provider answers `response`, the profile store
answers `profile`, and the host callback returns. -/
def LoginPage.sampleEnv (response : AuthResponse) (profile : Option Profile) : LoginPage.Env :=
  { signInWithPassword := fun _ _ => .ok response
    selectRole := fun _ => .ok profile
    onLogin := fun _ => .ok () }

/-- A registration in which the provider answers `response`, the insert
resolves, and the host callback (when `withOnLogin`) returns. -/
def RegisterPage.sampleEnv (response : AuthResponse) (withOnLogin : Bool) : RegisterPage.Env :=
  { signUp := fun _ _ => .ok response
    insertProfile := fun _ => .ok ()
    onLogin := if withOnLogin then some (fun _ => .ok ()) else none }

/-- The login form of the success scenario. -/
def LoginPage.sampleForm : LoginPage.FormData :=
  { email := js "u@x.com", password := js "secret1" }

/-- A register form that passes every rule. -/
def RegisterPage.sampleForm : RegisterPage.FormData :=
  { fullName := js "Ann Lee", email := js "a@b.co", phone := js "+1 555 0100",
    password := js "secret1", confirmPassword := js "secret1" }

/-! ## Lemmas: strings -/

theorem dropWhile_eq_nil_iff_all (p : Nat → Bool) (s : List Nat) :
    s.dropWhile p = [] ↔ ∀ c ∈ s, p c = true := by
  induction s with
  | nil => simp
  | cons a s ih =>
    by_cases h : p a = true
    · simp [List.dropWhile_cons, h, ih]
    · simp [List.dropWhile_cons, h]

theorem trim_eq_nil_iff (s : JSString) : trim s = [] ↔ Blank s := by
  unfold trim trimEnd trimStart Blank
  constructor
  · intro h
    have h1 : (List.dropWhile isWhiteSpace s).reverse.dropWhile isWhiteSpace = [] := by
      simpa using h
    rw [dropWhile_eq_nil_iff_all] at h1
    by_cases h2 : List.dropWhile isWhiteSpace s = []
    · exact (dropWhile_eq_nil_iff_all _ _).1 h2
    · exfalso
      obtain ⟨a, l, hal⟩ := List.exists_cons_of_ne_nil h2
      have hhead : isWhiteSpace a = true := h1 a (by simp [hal])
      have := List.head_dropWhile_not isWhiteSpace s h2
      simp [hal, hhead] at this
  · intro h
    have : List.dropWhile isWhiteSpace s = [] := (dropWhile_eq_nil_iff_all _ _).2 h
    simp [this]

theorem not_truthy_trim_iff (s : JSString) : (!truthy (trim s)) = true ↔ Blank s := by
  rw [← trim_eq_nil_iff]
  cases h : trim s <;> simp [truthy]

theorem not_truthy_iff (s : JSString) : (!truthy s) = true ↔ s = [] := by
  cases s <;> simp [truthy]

/-! ## Lemmas: regular expressions -/

namespace RegExp

theorem nullable_iff (r : RegExp) : nullable r = true ↔ Matches r [] := by
  induction r with
  | never => simp [nullable, Matches]
  | empty => simp [nullable, Matches]
  | set p => simp [nullable, Matches]
  | seq a b iha ihb =>
    simp only [nullable, Matches, Bool.and_eq_true, iha, ihb]
    constructor
    · rintro ⟨ha, hb⟩; exact ⟨[], [], rfl, ha, hb⟩
    · rintro ⟨u, v, huv, ha, hb⟩
      have h := List.append_eq_nil.1 huv.symm
      rw [h.1] at ha
      rw [h.2] at hb
      exact ⟨ha, hb⟩
  | alt a b iha ihb => simp [nullable, Matches, iha, ihb]
  | star a _ =>
    simp only [nullable, Matches, true_iff]
    exact ⟨[], by simp, by simp⟩

theorem star_cons_iff (a : RegExp) (c : Nat) (s : List Nat) :
    Matches (star a) (c :: s) ↔
      ∃ u v, s = u ++ v ∧ Matches a (c :: u) ∧ Matches (star a) v := by
  constructor
  · rintro ⟨L, hL, hall⟩
    induction L with
    | nil => simp at hL
    | cons w L ih =>
      cases w with
      | nil =>
        exact ih (by simpa using hL) (fun u hu => hall u (List.mem_cons_of_mem _ hu))
      | cons d w =>
        simp only [List.flatten_cons, List.cons_append, List.cons.injEq] at hL
        obtain ⟨rfl, rfl⟩ := hL
        exact ⟨w, L.flatten, rfl, hall _ (List.mem_cons_self _ _),
          L, rfl, fun u hu => hall u (List.mem_cons_of_mem _ hu)⟩
  · rintro ⟨u, v, rfl, hu, L, rfl, hall⟩
    refine ⟨(c :: u) :: L, by simp, ?_⟩
    intro w hw
    rcases List.mem_cons.1 hw with rfl | hw
    · exact hu
    · exact hall w hw

theorem deriv_iff (r : RegExp) (c : Nat) (s : List Nat) :
    Matches (deriv r c) s ↔ Matches r (c :: s) := by
  induction r generalizing s with
  | never => simp [deriv, Matches]
  | empty => simp [deriv, Matches]
  | set p =>
    by_cases h : p c = true
    · simp only [deriv, h, if_true, Matches]
      constructor
      · rintro rfl; exact ⟨c, rfl, h⟩
      · rintro ⟨d, hd, _⟩
        simp only [List.cons.injEq] at hd
        exact hd.2
    · simp only [deriv, h, Matches]
      simp only [Bool.false_eq_true, if_false, Matches, false_iff]
      rintro ⟨d, hd, hp⟩
      simp only [List.cons.injEq] at hd
      rw [← hd.1] at hp
      exact h hp
  | seq a b iha ihb =>
    have key : Matches (seq a b) (c :: s) ↔
        (∃ u v, s = u ++ v ∧ Matches a (c :: u) ∧ Matches b v) ∨
          (Matches a [] ∧ Matches b (c :: s)) := by
      constructor
      · rintro ⟨u, v, huv, hu, hv⟩
        cases u with
        | nil =>
          simp only [List.nil_append] at huv
          subst huv
          exact Or.inr ⟨hu, hv⟩
        | cons d u =>
          simp only [List.cons_append, List.cons.injEq] at huv
          obtain ⟨rfl, rfl⟩ := huv
          exact Or.inl ⟨u, v, rfl, hu, hv⟩
      · rintro (⟨u, v, rfl, hu, hv⟩ | ⟨ha, hb⟩)
        · exact ⟨c :: u, v, rfl, hu, hv⟩
        · exact ⟨[], c :: s, rfl, ha, hb⟩
    rw [key]
    by_cases hn : nullable a = true
    · simp only [deriv, hn, if_true, Matches, iha, ihb]
      have := (nullable_iff a).1 hn
      simp [this]
    · simp only [deriv, hn, Matches, iha]
      have : ¬ Matches a [] := fun h => hn ((nullable_iff a).2 h)
      simp [this, Matches, iha]
  | alt a b iha ihb => simp [deriv, Matches, iha, ihb]
  | star a iha =>
    rw [star_cons_iff]
    simp only [deriv, Matches, iha]

theorem test_iff (r : RegExp) (s : JSString) : test r s = true ↔ Matches r s := by
  unfold test
  induction s generalizing r with
  | nil => simpa using nullable_iff r
  | cons c s ih => rw [List.foldl_cons, ih, deriv_iff]

theorem plus_set_iff (p : Nat → Bool) (s : List Nat) :
    Matches (plus (set p)) s ↔ s ≠ [] ∧ ∀ c ∈ s, p c = true := by
  have hstar : ∀ v : List Nat, Matches (star (set p)) v ↔ ∀ c ∈ v, p c = true := by
    intro v
    induction v with
    | nil =>
      simp only [List.not_mem_nil, false_imp_iff, implies_true, iff_true]
      exact ⟨[], by simp, by simp⟩
    | cons d v ih =>
      rw [star_cons_iff]
      constructor
      · rintro ⟨u, w, rfl, ⟨e, he, hp⟩, hw⟩
        simp only [List.cons.injEq] at he
        obtain ⟨rfl, rfl⟩ := he
        intro c hc
        rcases List.mem_cons.1 hc with rfl | hc
        · exact hp
        · exact (ih.1 (by simpa using hw)) c (by simpa using hc)
      · intro h
        exact ⟨[], v, rfl, ⟨d, rfl, h d (List.mem_cons_self _ _)⟩,
          ih.2 (fun c hc => h c (List.mem_cons_of_mem _ hc))⟩
  unfold plus
  constructor
  · rintro ⟨u, v, rfl, ⟨d, rfl, hp⟩, hv⟩
    refine ⟨by simp, ?_⟩
    intro c hc
    rcases List.mem_cons.1 hc with rfl | hc
    · exact hp
    · exact (hstar v).1 hv c hc
  · rintro ⟨hne, h⟩
    obtain ⟨d, v, rfl⟩ := List.exists_cons_of_ne_nil hne
    exact ⟨[d], v, rfl, ⟨d, rfl, h d (List.mem_cons_self _ _)⟩,
      (hstar v).2 (fun c hc => h c (List.mem_cons_of_mem _ hc))⟩

theorem seq_iff (a b : RegExp) (s : List Nat) :
    Matches (seq a b) s ↔ ∃ u v, s = u ++ v ∧ Matches a u ∧ Matches b v := Iff.rfl

theorem chr_iff (c : Nat) (s : List Nat) : Matches (chr c) s ↔ s = [c] := by
  unfold chr
  simp only [Matches, beq_iff_eq]
  constructor
  · rintro ⟨d, rfl, rfl⟩; rfl
  · rintro rfl; exact ⟨c, rfl, rfl⟩

end RegExp

theorem notSpaceNorAt_iff (c : Nat) :
    notSpaceNorAt c = true ↔ isWhiteSpace c = false ∧ c ≠ 0x40 := by
  unfold notSpaceNorAt
  cases isWhiteSpace c <;> simp

theorem emailPattern_matches_iff (s : JSString) :
    emailPattern.Matches s ↔
      ∃ loc d tld : JSString, s = loc ++ 0x40 :: (d ++ 0x2E :: tld) ∧
        (loc ≠ [] ∧ ∀ c ∈ loc, notSpaceNorAt c = true) ∧
        (d ≠ [] ∧ ∀ c ∈ d, notSpaceNorAt c = true) ∧
        (tld ≠ [] ∧ ∀ c ∈ tld, notSpaceNorAt c = true) := by
  unfold emailPattern
  simp only [RegExp.seq_iff, RegExp.chr_iff, RegExp.plus_set_iff]
  constructor
  · rintro ⟨loc, r1, rfl, hloc, a, r2, rfl, rfl, d, r3, rfl, hd, b, tld, rfl, rfl, htld⟩
    exact ⟨loc, d, tld, by simp, hloc, hd, htld⟩
  · rintro ⟨loc, d, tld, rfl, hloc, hd, htld⟩
    exact ⟨loc, _, rfl, hloc, [0x40], _, rfl, rfl, d, _, rfl, hd, [0x2E], tld, rfl, rfl, htld⟩

theorem emailPattern_test_iff (s : JSString) :
    emailPattern.test s = true ↔ LocalDomainTld s := by
  rw [RegExp.test_iff, emailPattern_matches_iff]
  unfold LocalDomainTld
  constructor
  · rintro ⟨loc, d, tld, rfl, ⟨hl0, hl⟩, ⟨hd0, hd⟩, ⟨ht0, ht⟩⟩
    have cz : ∀ u : List Nat, (∀ c ∈ u, notSpaceNorAt c = true) → u.count 0x40 = 0 := by
      intro u hu
      rw [List.count_eq_zero]
      intro hmem
      exact ((notSpaceNorAt_iff _).1 (hu _ hmem)).2 rfl
    refine ⟨?_, ?_, loc, _, rfl, hl0, d, tld, rfl, hd0, ht0⟩
    · intro c hc
      simp only [List.mem_append, List.mem_cons] at hc
      rcases hc with h | rfl | h | rfl | h
      · exact ((notSpaceNorAt_iff _).1 (hl c h)).1
      · decide
      · exact ((notSpaceNorAt_iff _).1 (hd c h)).1
      · decide
      · exact ((notSpaceNorAt_iff _).1 (ht c h)).1
    · simp [List.count_append, List.count_cons, cz loc hl, cz d hd, cz tld ht]
  · rintro ⟨hws, hcount, loc, dom, rfl, hl0, d, tld, rfl, hd0, ht0⟩
    simp only [List.count_append, List.count_cons, beq_self_eq_true, if_true] at hcount
    have h46 : ((0x2E : Nat) == 0x40) = false := by decide
    simp only [h46] at hcount
    have hcl : loc.count 0x40 = 0 := by omega
    have hcd : d.count 0x40 = 0 := by omega
    have hct : tld.count 0x40 = 0 := by omega
    have mk : ∀ u : List Nat, u.count 0x40 = 0 → (∀ c ∈ u, isWhiteSpace c = false) →
        ∀ c ∈ u, notSpaceNorAt c = true := by
      intro u hu hw c hc
      rw [notSpaceNorAt_iff]
      refine ⟨hw c hc, ?_⟩
      rintro rfl
      exact (List.count_eq_zero.1 hu) hc
    refine ⟨loc, d, tld, rfl, ⟨hl0, mk loc hcl ?_⟩, ⟨hd0, mk d hcd ?_⟩, ⟨ht0, mk tld hct ?_⟩⟩
    · intro c hc; exact hws c (by simp [hc])
    · intro c hc; exact hws c (by simp [hc])
    · intro c hc; exact hws c (by simp [hc])

/-! ## Lemmas: the error mapping -/

theorem truthy_trim_eq_false_iff (s : JSString) : truthy (trim s) = false ↔ Blank s := by
  rw [← not_truthy_trim_iff]; simp

theorem truthy_trim_eq_true_iff (s : JSString) : truthy (trim s) = true ↔ ¬ Blank s := by
  rw [← truthy_trim_eq_false_iff]; simp

theorem truthy_eq_false_iff (s : JSString) : truthy s = false ↔ s = [] := by
  cases s <;> simp [truthy]

theorem truthy_eq_true_iff (s : JSString) : truthy s = true ↔ s ≠ [] := by
  cases s <;> simp [truthy]

namespace Errors

theorem keys_nil : keys ([] : Errors) = [] := rfl

theorem keys_set (o : Errors) (k : Key) (v : JSString) :
    (o.set k v).keys = if k ∈ o.keys then o.keys else o.keys ++ [k] := by
  unfold set keys
  by_cases h : k ∈ List.map Prod.fst o
  · have hany : (o.any fun e => e.1 == k) = true := by
      simp only [List.mem_map] at h
      obtain ⟨e, he, rfl⟩ := h
      exact List.any_eq_true.2 ⟨e, he, by simp⟩
    simp only [hany, if_true, h, List.map_map]
    apply List.map_congr_left
    intro e _
    by_cases hk : e.1 = k <;> simp [hk]
  · have hany : (o.any fun e => e.1 == k) = false := by
      rw [Bool.eq_false_iff]
      intro hc
      obtain ⟨e, he, hek⟩ := List.any_eq_true.1 hc
      exact h (List.mem_map.2 ⟨e, he, by simpa using hek⟩)
    simp [hany, h]

theorem keys_step {o : Errors} {L : List Key} (k : Key) (v : JSString) {c d : Prop}
    [Decidable c] [Decidable d] (hc : c ↔ d) (ho : o.keys = L) (hk : k ∉ L) :
    (if c then o.set k v else o).keys = L ++ if d then [k] else [] := by
  by_cases h : c
  · have hd : d := hc.1 h
    simp [h, hd, keys_set, ho, hk]
  · have hd : ¬ d := fun x => h (hc.2 x)
    simp [h, hd, ho]

theorem keys_step2 {o : Errors} {L : List Key} (k : Key) (v w : JSString) {c d c2 d2 : Prop}
    [Decidable c] [Decidable d] [Decidable c2] [Decidable d2] (hc : c ↔ d) (hc2 : c2 ↔ d2)
    (ho : o.keys = L) (hk : k ∉ L) :
    (if c then o.set k v else if c2 then o.set k w else o).keys =
      L ++ if d ∨ d2 then [k] else [] := by
  by_cases h : c
  · have hd : d := hc.1 h
    simp [h, hd, keys_set, ho, hk]
  · have hd : ¬ d := fun x => h (hc.2 x)
    simp only [h, if_false, hd, false_or]
    exact keys_step k w hc2 ho hk

theorem mem_keys_iff_get (o : Errors) (k : Key) : k ∈ o.keys ↔ ∃ v, o.get k = some v := by
  unfold keys get
  induction o with
  | nil => simp
  | cons e o ih =>
    obtain ⟨k1, v1⟩ := e
    by_cases h : k = k1
    · subst h; simp [List.lookup]
    · have h2 : (k == k1) = false := by simpa using h
      simp only [List.map_cons, List.mem_cons, h, false_or, List.lookup, h2]
      exact ih

theorem get_set_self (o : Errors) (k : Key) (v : JSString) : (o.set k v).get k = some v := by
  unfold set get
  induction o with
  | nil => simp [List.lookup]
  | cons e o ih =>
    obtain ⟨k1, v1⟩ := e
    by_cases h : k1 = k
    · subst h; simp [List.lookup]
    · have h2 : (k == k1) = false := by simpa using (Ne.symm h)
      have h3 : (k1 == k) = false := by simpa using h
      simp only [List.any_cons, h3, Bool.false_or, List.map_cons, h, if_false,
        List.cons_append] at ih ⊢
      by_cases hany : (o.any fun e => e.1 == k) = true
      · simp only [hany, if_true] at ih ⊢
        simp only [List.lookup, h2]
        exact ih
      · simp only [hany] at ih ⊢
        simp only [Bool.false_eq_true, if_false] at ih ⊢
        simp only [List.lookup, h2]
        exact ih

theorem get_set_of_ne (o : Errors) (k j : Key) (v : JSString) (h : j ≠ k) :
    (o.set k v).get j = o.get j := by
  unfold set get
  have hmap : ∀ l : Errors,
      List.lookup j (l.map fun e => if e.1 = k then (k, v) else e) = List.lookup j l := by
    intro l
    induction l with
    | nil => rfl
    | cons e l ih =>
      obtain ⟨k1, v1⟩ := e
      by_cases h1 : k1 = k
      · subst h1
        have h2 : (j == k1) = false := by simpa using h
        simp only [List.map_cons, ↓reduceIte]
        simp only [List.lookup, h2]
        exact ih
      · simp only [List.map_cons, h1, if_false]
        by_cases h3 : j = k1
        · subst h3; simp [List.lookup]
        · have h4 : (j == k1) = false := by simpa using h3
          simp only [List.lookup, h4]
          exact ih
  have happ : ∀ l : Errors, List.lookup j (l ++ [(k, v)]) = List.lookup j l := by
    intro l
    have h2 : (j == k) = false := by simpa using h
    induction l with
    | nil => simp [List.lookup, h2]
    | cons e l ih =>
      obtain ⟨k1, v1⟩ := e
      by_cases h3 : j = k1
      · subst h3; simp [List.lookup]
      · have h4 : (j == k1) = false := by simpa using h3
        simp only [List.cons_append, List.lookup, h4]
        exact ih
  by_cases hany : (o.any fun e => e.1 == k) = true
  · simp only [hany, if_true]; exact hmap o
  · simp only [hany]; exact happ o

end Errors

/-- The keys of the mapping built at the head of the login `handleSubmit`. -/
theorem LoginPage.keys_login_newErrors (t : Translate) (f : LoginPage.FormData) :
    (LoginPage.newErrors t f).keys =
      (if Blank f.email then [Key.email] else []) ++
      (if f.password = [] then [Key.password] else []) := by
  have s1 := Errors.keys_step Key.email (t "register.emailError")
    (not_truthy_trim_iff f.email) Errors.keys_nil (by simp)
  rw [List.nil_append] at s1
  have s2 := Errors.keys_step Key.password (t "register.passwordError")
    (not_truthy_iff f.password) s1 (by split_ifs <;> simp)
  exact s2

/-- Overwriting an entry that is there keeps the keys. -/
theorem Errors.keys_set_of_truthy (o : Errors) (k : Key) (v : JSString)
    (h : truthy? (o.get k) = true) : (o.set k v).keys = o.keys := by
  have hk : k ∈ o.keys := by
    rw [Errors.mem_keys_iff_get]
    cases hg : o.get k with
    | none => rw [hg] at h; exact Bool.noConfusion h
    | some w => exact ⟨w, rfl⟩
  rw [Errors.keys_set]
  simp [hk]

theorem keys_eq_nil_iff (o : Errors) : o.keys = [] ↔ o = [] := by
  cases o <;> simp [Errors.keys]

/-- A valid login form builds the empty mapping. -/
theorem LoginPage.newErrors_eq_nil (t : Translate) (f : LoginPage.FormData)
    (hemail : ¬ Blank f.email) (hpassword : f.password ≠ []) :
    LoginPage.newErrors t f = [] := by
  rw [← keys_eq_nil_iff, LoginPage.keys_login_newErrors]
  simp [hemail, hpassword]

/-- When the timer callback of the login page navigates to `admin`. -/
theorem LoginPage.timerDestination_admin_iff (ROLE_PERMISSIONS : RolePermissions)
    (profile : Option Profile) :
    LoginPage.timerDestination ROLE_PERMISSIONS profile = Destination.admin ↔
      ∃ p role perms, profile = some p ∧ p.role = some role ∧ role ≠ [] ∧
        ROLE_PERMISSIONS role = some perms ∧ perms.canAccessAdmin = true := by
  unfold LoginPage.timerDestination
  rcases profile with _ | ⟨⟨_ | role⟩⟩
  · simp [truthy?]
  · simp [truthy?]
  · rcases hr : ROLE_PERMISSIONS role with _ | ⟨⟨b⟩⟩
    · simp [truthy?, hr]
    · cases role <;> cases b <;> simp [truthy?, truthy, hr]

namespace RegisterPage

/-- A form `validateForm` accepts builds the empty mapping. -/
theorem newErrors_eq_nil_of_valid (t : Translate) (f : FormData)
    (h : (validateForm t f).2 = true) : newErrors t f = [] := by
  rw [← keys_eq_nil_iff]
  simpa [validateForm] using h

/-- The keys of the mapping built by `validateForm`, rule by rule, in the order
of the source. -/
theorem keys_newErrors (t : Translate) (f : FormData) :
    (newErrors t f).keys =
      (if Blank f.fullName then [Key.fullName] else []) ++
      (if Blank f.email ∨ emailPattern.test f.email = false then [Key.email] else []) ++
      (if Blank f.phone then [Key.phone] else []) ++
      (if f.password = [] ∨ f.password.length < 6 then [Key.password] else []) ++
      (if f.password ≠ f.confirmPassword then [Key.confirmPassword] else []) := by
  have s1 := Errors.keys_step Key.fullName (t "register.nameError")
    (not_truthy_trim_iff f.fullName) Errors.keys_nil (by simp)
  rw [List.nil_append] at s1
  have s2 := Errors.keys_step2 Key.email (t "register.emailError") (t "register.emailInvalid")
    (not_truthy_trim_iff f.email)
    (show (!emailPattern.test f.email) = true ↔ emailPattern.test f.email = false by simp)
    s1 (by split_ifs <;> simp)
  have s3 := Errors.keys_step Key.phone (t "register.phoneError")
    (not_truthy_trim_iff f.phone) s2 (by split_ifs <;> simp)
  have s4 := Errors.keys_step2 Key.password (t "register.passwordError")
    (t "register.passwordShort") (not_truthy_iff f.password)
    (Iff.refl (f.password.length < 6)) s3 (by split_ifs <;> simp)
  have s5 := Errors.keys_step Key.confirmPassword (t "register.passwordMatch")
    (Iff.refl (f.password ≠ f.confirmPassword)) s4 (by split_ifs <;> simp)
  exact s5

end RegisterPage

theorem condKeys_mem (a b c d e : Prop) [Decidable a] [Decidable b] [Decidable c]
    [Decidable d] [Decidable e] (k : Key) :
    k ∈ (if a then [Key.fullName] else []) ++ (if b then [Key.email] else []) ++
        (if c then [Key.phone] else []) ++ (if d then [Key.password] else []) ++
        (if e then [Key.confirmPassword] else []) ↔
      (k = Key.fullName ∧ a) ∨ (k = Key.email ∧ b) ∨ (k = Key.phone ∧ c) ∨
        (k = Key.password ∧ d) ∨ (k = Key.confirmPassword ∧ e) := by
  by_cases ha : a <;> by_cases hb : b <;> by_cases hc : c <;> by_cases hd : d <;>
    by_cases he : e <;> simp [ha, hb, hc, hd, he]

theorem condKeys_nil_iff (a b c d e : Prop) [Decidable a] [Decidable b] [Decidable c]
    [Decidable d] [Decidable e] :
    (if a then [Key.fullName] else []) ++ (if b then [Key.email] else []) ++
        (if c then [Key.phone] else []) ++ (if d then [Key.password] else []) ++
        (if e then [Key.confirmPassword] else []) = [] ↔
      ¬ a ∧ ¬ b ∧ ¬ c ∧ ¬ d ∧ ¬ e := by
  by_cases ha : a <;> by_cases hb : b <;> by_cases hc : c <;> by_cases hd : d <;>
    by_cases he : e <;> simp [ha, hb, hc, hd, he]

theorem condKeys_nodup (a b c d e : Prop) [Decidable a] [Decidable b] [Decidable c]
    [Decidable d] [Decidable e] :
    ((if a then [Key.fullName] else []) ++ (if b then [Key.email] else []) ++
        (if c then [Key.phone] else []) ++ (if d then [Key.password] else []) ++
        (if e then [Key.confirmPassword] else [])).Nodup := by
  by_cases ha : a <;> by_cases hb : b <;> by_cases hc : c <;> by_cases hd : d <;>
    by_cases he : e <;> simp [ha, hb, hc, hd, he]

theorem Blank_of_localDomainTld_false (s : JSString) (h : LocalDomainTld s) : ¬ Blank s := by
  obtain ⟨hws, _, loc, dom, rfl, hloc, _⟩ := h
  obtain ⟨c, l, rfl⟩ := List.exists_cons_of_ne_nil hloc
  intro hb
  have h1 := hws c (by simp)
  have h2 := hb c (by simp)
  rw [h1] at h2
  exact Bool.noConfusion h2

namespace RegisterPage

theorem confirmPassword_get (t : Translate) (f : FormData) :
    (newErrors t f).get Key.confirmPassword =
      if f.password ≠ f.confirmPassword then some (t "register.passwordMatch") else none := by
  by_cases h : f.password = f.confirmPassword
  · have hk : Key.confirmPassword ∉ (newErrors t f).keys := by
      rw [keys_newErrors]
      simp only [ne_eq, h, not_true_eq_false, if_false, List.append_nil]
      split_ifs <;> simp
    have hnone : ∀ v, (newErrors t f).get Key.confirmPassword ≠ some v := by
      intro v hv
      exact hk ((Errors.mem_keys_iff_get _ _).2 ⟨v, hv⟩)
    simp only [ne_eq, h, not_true_eq_false, if_false]
    cases hg : (newErrors t f).get Key.confirmPassword with
    | none => rfl
    | some v => exact absurd hg (hnone v)
  · simp only [ne_eq, h, not_false_eq_true, if_true]
    unfold newErrors
    simp only [ne_eq, h, not_false_eq_true, if_true]
    exact Errors.get_set_self _ _ _

end RegisterPage

/-! ## Lemmas: reachable states -/

theorem Errors.get_step {P : Key → JSString → Prop} {o : Errors} (k0 : Key) (v0 : JSString)
    {c : Prop} [Decidable c] (ho : ∀ k v, o.get k = some v → P k v) (h0 : P k0 v0) :
    ∀ k v, (if c then o.set k0 v0 else o).get k = some v → P k v := by
  intro k v h
  by_cases hc : c
  · simp only [hc, if_true] at h
    by_cases hk : k = k0
    · subst hk
      rw [Errors.get_set_self] at h
      cases h
      exact h0
    · rw [Errors.get_set_of_ne _ _ _ _ hk] at h
      exact ho k v h
  · simp only [hc, if_false] at h
    exact ho k v h

theorem Errors.get_step2 {P : Key → JSString → Prop} {o : Errors} (k0 : Key)
    (v0 w0 : JSString) {c d : Prop} [Decidable c] [Decidable d]
    (ho : ∀ k v, o.get k = some v → P k v) (h0 : P k0 v0) (h1 : P k0 w0) :
    ∀ k v, (if c then o.set k0 v0 else if d then o.set k0 w0 else o).get k = some v →
      P k v := by
  intro k v h
  by_cases hc : c
  · simp only [hc, if_true] at h
    exact Errors.get_step (c := True) k0 v0 ho h0 k v (by simpa using h)
  · simp only [hc, if_false] at h
    exact Errors.get_step k0 w0 ho h1 k v h

theorem Errors.get_singleton (k0 : Key) (v0 : JSString) (k : Key) (v : JSString)
    (h : Errors.get [(k0, v0)] k = some v) : k = k0 ∧ v = v0 := by
  by_cases hk : k = k0
  · subst hk
    simp [Errors.get, List.lookup] at h
    exact ⟨rfl, h.symm⟩
  · have h2 : (k == k0) = false := by simpa using hk
    simp [Errors.get, List.lookup, h2] at h

theorem Errors.get_nil_elim {P : Key → JSString → Prop} :
    ∀ k v, Errors.get [] k = some v → P k v := by
  intro k v h
  simp [Errors.get, List.lookup] at h

theorem LoginPage.newErrors_isMessage (t : Translate) (f : LoginPage.FormData) :
    ∀ k v, (LoginPage.newErrors t f).get k = some v → LoginPage.IsMessage t k v := by
  have s1 := Errors.get_step (P := LoginPage.IsMessage t) (c := (!truthy (trim f.email)) = true)
    Key.email (t "register.emailError") Errors.get_nil_elim rfl
  have s2 := Errors.get_step (P := LoginPage.IsMessage t) (c := (!truthy f.password) = true)
    Key.password (t "register.passwordError") s1 rfl
  exact s2

theorem RegisterPage.newErrors_isMessage_register (t : Translate)
    (f : RegisterPage.FormData) :
    ∀ k v, (RegisterPage.newErrors t f).get k = some v → RegisterPage.IsMessage t k v := by
  have s1 := Errors.get_step (P := RegisterPage.IsMessage t)
    (c := (!truthy (trim f.fullName)) = true)
    Key.fullName (t "register.nameError") Errors.get_nil_elim rfl
  have s2 := Errors.get_step2 (P := RegisterPage.IsMessage t)
    (c := (!truthy (trim f.email)) = true) (d := (!emailPattern.test f.email) = true)
    Key.email (t "register.emailError") (t "register.emailInvalid") s1
    (Or.inl rfl) (Or.inr rfl)
  have s3 := Errors.get_step (P := RegisterPage.IsMessage t)
    (c := (!truthy (trim f.phone)) = true)
    Key.phone (t "register.phoneError") s2 rfl
  have s4 := Errors.get_step2 (P := RegisterPage.IsMessage t)
    (c := (!truthy f.password) = true) (d := f.password.length < 6)
    Key.password (t "register.passwordError") (t "register.passwordShort") s3
    (Or.inl rfl) (Or.inr rfl)
  have s5 := Errors.get_step (P := RegisterPage.IsMessage t)
    (c := f.password ≠ f.confirmPassword)
    Key.confirmPassword (t "register.passwordMatch") s4 rfl
  exact s5

theorem LoginPage.submit_errors_cases (t : Translate) (ROLE_PERMISSIONS : RolePermissions)
    (env : LoginPage.Env) (st : LoginPage.State) :
    (LoginPage.submit t ROLE_PERMISSIONS env st).errors = st.errors ∨
    (LoginPage.submit t ROLE_PERMISSIONS env st).errors = LoginPage.newErrors t st.formData ∨
    (LoginPage.submit t ROLE_PERMISSIONS env st).errors = [(Key.submit, t "login.error")] ∨
    (LoginPage.submit t ROLE_PERMISSIONS env st).errors = [(Key.submit, t "register.error")] := by
  unfold LoginPage.submit LoginPage.handleSubmit
  by_cases h : (LoginPage.newErrors t st.formData).keys.length > 0
  · simp [h, LoginPage.State.apply]
  · simp only [h, if_false]
    unfold LoginPage.tryBlock
    repeat' split
    all_goals simp [LoginPage.State.apply, LoginPage.catchBlock, Errors.set]

theorem RegisterPage.submit_errors_cases_register (t : Translate) (ROLES : Roles)
    (env : RegisterPage.Env) (st : RegisterPage.State) :
    (RegisterPage.submit t ROLES env st).errors = RegisterPage.newErrors t st.formData ∨
    (∃ m, (RegisterPage.submit t ROLES env st).errors = [(Key.submit, m)]) := by
  unfold RegisterPage.submit RegisterPage.handleSubmit
  by_cases h : (RegisterPage.validateForm t st.formData).2 = true
  · simp only [h, Bool.not_true, Bool.false_eq_true, if_false]
    unfold RegisterPage.tryBlock
    rcases h1 : env.signUp st.formData.email st.formData.password with e | ⟨user, error⟩
    · simp [RegisterPage.State.apply, RegisterPage.catchBlock, Errors.set,
        RegisterPage.validateForm]
    · rcases error with _ | authError
      · rcases user with _ | user
        · simp [RegisterPage.State.apply, RegisterPage.catchBlock, RegisterPage.validateForm]
        · rcases h2 : env.insertProfile (RegisterPage.profileData ROLES st.formData user)
            with e | _
          · simp [h2, RegisterPage.State.apply, RegisterPage.catchBlock, Errors.set,
              RegisterPage.validateForm]
          · rcases h3 : env.onLogin with _ | cb
            · simp [h2, RegisterPage.State.apply, RegisterPage.catchBlock,
                RegisterPage.validateForm]
            · rcases h4 : cb user with e | _ <;>
                simp [h2, h4, RegisterPage.State.apply, RegisterPage.catchBlock, Errors.set,
                  RegisterPage.validateForm]
      · simp [RegisterPage.State.apply, RegisterPage.catchBlock, Errors.set,
          RegisterPage.validateForm]
  · simp only [h, Bool.not_false, if_true]
    simp [RegisterPage.State.apply, RegisterPage.validateForm]

/-- Entries of the login page: blank for an edited field, else a message of the
page. -/
theorem LoginPage.entries_of_reachable (t : Translate) (ROLE_PERMISSIONS : RolePermissions)
    (st : LoginPage.State) (h : LoginPage.Reachable t ROLE_PERMISSIONS st) :
    ∀ k v, st.errors.get k = some v →
      (v = [] ∧ k ≠ Key.submit) ∨ LoginPage.IsMessage t k v := by
  induction h with
  | initial => intro k v hg; simp [LoginPage.State.initial, Errors.get, List.lookup] at hg
  | @change st name value _ ih =>
    intro k v hg
    unfold LoginPage.handleChange at hg
    by_cases ht : truthy? (st.errors.get name.key) = true
    · simp only [ht, if_true] at hg
      by_cases hk : k = name.key
      · subst hk
        rw [Errors.get_set_self] at hg
        cases hg
        exact Or.inl ⟨rfl, by cases name <;> simp [LoginPage.Field.key]⟩
      · rw [Errors.get_set_of_ne _ _ _ _ hk] at hg
        exact ih k v hg
    · simp only [ht] at hg
      exact ih k v hg
  | @submit st env _ ih =>
    intro k v hg
    rcases LoginPage.submit_errors_cases t ROLE_PERMISSIONS env st with h | h | h | h
    · rw [h] at hg; exact ih k v hg
    · rw [h] at hg; exact Or.inr (LoginPage.newErrors_isMessage t st.formData k v hg)
    · rw [h] at hg
      obtain ⟨rfl, rfl⟩ := Errors.get_singleton _ _ _ _ hg
      exact Or.inr (Or.inl rfl)
    · rw [h] at hg
      obtain ⟨rfl, rfl⟩ := Errors.get_singleton _ _ _ _ hg
      exact Or.inr (Or.inr rfl)

/-- Entries of the register page: blank for an edited field, else a message of
the page. -/
theorem RegisterPage.entries_of_reachable_register (t : Translate) (ROLES : Roles)
    (st : RegisterPage.State) (h : RegisterPage.Reachable t ROLES st) :
    ∀ k v, st.errors.get k = some v →
      (v = [] ∧ k ≠ Key.submit) ∨ RegisterPage.IsMessage t k v := by
  induction h with
  | initial => intro k v hg; simp [RegisterPage.State.initial, Errors.get, List.lookup] at hg
  | @change st name value _ ih =>
    intro k v hg
    unfold RegisterPage.handleChange at hg
    by_cases ht : truthy? (st.errors.get name.key) = true
    · simp only [ht, if_true] at hg
      by_cases hk : k = name.key
      · subst hk
        rw [Errors.get_set_self] at hg
        cases hg
        exact Or.inl ⟨rfl, by cases name <;> simp [RegisterPage.Field.key]⟩
      · rw [Errors.get_set_of_ne _ _ _ _ hk] at hg
        exact ih k v hg
    · simp only [ht] at hg
      exact ih k v hg
  | @submit st env _ ih =>
    intro k v hg
    rcases RegisterPage.submit_errors_cases_register t ROLES env st with h | ⟨m, h⟩
    · rw [h] at hg
      exact Or.inr (RegisterPage.newErrors_isMessage_register t st.formData k v hg)
    · rw [h] at hg
      obtain ⟨rfl, rfl⟩ := Errors.get_singleton _ _ _ _ hg
      exact Or.inr trivial

/-- The effects of the login `handleSubmit` when the provider reports an
error. -/
theorem LoginPage.handleSubmit_of_provider_error (t : Translate)
    (ROLE_PERMISSIONS : RolePermissions) (env : LoginPage.Env) (f : LoginPage.FormData)
    (user : Option User) (error : AuthError)
    (hemail : ¬ Blank f.email) (hpassword : f.password ≠ [])
    (hprovider : env.signInWithPassword f.email f.password =
      .ok { user := user, error := some error }) :
    LoginPage.handleSubmit t ROLE_PERMISSIONS env f =
      [Effect.preventDefault, Effect.setLoading true,
        Effect.signInWithPassword f.email f.password,
        Effect.setErrors [(Key.submit, t "login.error")],
        Effect.setLoading false, Effect.setLoading false] := by
  have hvalid := LoginPage.newErrors_eq_nil t f hemail hpassword
  unfold LoginPage.handleSubmit
  simp [hvalid, Errors.keys, LoginPage.tryBlock, hprovider, LoginPage.catchBlock,
    Errors.set]

/-! ## Theorems -/

/-- C1: the mapping built by the register `validateForm` has a key for a field
exactly when that field breaks its own rule (full name blank; email blank or
not matching the pattern; phone blank; password empty or shorter than 6;
confirmation different from the password), it never has the key `submit`, it is
what `validateForm` hands to `setErrors`, and `validateForm` returns true
exactly when the mapping has no entry, that is when no rule is broken. -/
theorem validateForm_keys_and_result (t : Translate) (f : RegisterPage.FormData) :
    (RegisterPage.validateForm t f).1 = [Effect.setErrors (RegisterPage.newErrors t f)] ∧
    (Key.fullName ∈ (RegisterPage.newErrors t f).keys ↔ Blank f.fullName) ∧
    (Key.email ∈ (RegisterPage.newErrors t f).keys ↔
      Blank f.email ∨ emailPattern.test f.email = false) ∧
    (Key.phone ∈ (RegisterPage.newErrors t f).keys ↔ Blank f.phone) ∧
    (Key.password ∈ (RegisterPage.newErrors t f).keys ↔
      f.password = [] ∨ f.password.length < 6) ∧
    (6 ≤ f.password.length ↔ Key.password ∉ (RegisterPage.newErrors t f).keys) ∧
    (Key.confirmPassword ∈ (RegisterPage.newErrors t f).keys ↔
      f.password ≠ f.confirmPassword) ∧
    Key.submit ∉ (RegisterPage.newErrors t f).keys ∧
    (RegisterPage.newErrors t f).keys.Nodup ∧
    ((RegisterPage.validateForm t f).2 = true ↔
      (RegisterPage.newErrors t f).keys.length = 0) ∧
    ((RegisterPage.validateForm t f).2 = true ↔
      ¬ Blank f.fullName ∧ ¬ (Blank f.email ∨ emailPattern.test f.email = false) ∧
      ¬ Blank f.phone ∧ ¬ (f.password = [] ∨ f.password.length < 6) ∧
      ¬ (f.password ≠ f.confirmPassword)) := by
  have hk := RegisterPage.keys_newErrors t f
  have hm := fun k => condKeys_mem (Blank f.fullName)
    (Blank f.email ∨ emailPattern.test f.email = false) (Blank f.phone)
    (f.password = [] ∨ f.password.length < 6) (f.password ≠ f.confirmPassword) k
  have hn := condKeys_nil_iff (Blank f.fullName)
    (Blank f.email ∨ emailPattern.test f.email = false) (Blank f.phone)
    (f.password = [] ∨ f.password.length < 6) (f.password ≠ f.confirmPassword)
  have hpw : Key.password ∈ (RegisterPage.newErrors t f).keys ↔
      f.password = [] ∨ f.password.length < 6 := by
    rw [hk, hm]; simp
  refine ⟨rfl, ?_, ?_, ?_, hpw, ?_, ?_, ?_, ?_, ?_, ?_⟩
  · rw [hk, hm]; simp
  · rw [hk, hm]; simp
  · rw [hk, hm]; simp
  · rw [hpw]
    constructor
    · rintro h6 (h | h)
      · rw [h] at h6; simp at h6
      · omega
    · intro h
      by_contra h6
      exact h (Or.inr (by omega))
  · rw [hk, hm]; simp
  · rw [hk, hm]; simp
  · rw [hk]; exact condKeys_nodup _ _ _ _ _
  · simp [RegisterPage.validateForm]
  · simp only [RegisterPage.validateForm, beq_iff_eq, List.length_eq_zero]
    rw [hk, hn]

/-- C2: the register `validateForm` reports no email error exactly when the
email has the `local@domain.tld` shape (no white space, exactly one `@`, a
non-empty part before it, and after it a `.` with a character before and a
character after); whatever the other fields hold, `a@b.co` is accepted and `abc`, `a@b`
and `a b@c.com` each get an email error. -/
theorem validateForm_email_shape (t : Translate) (f : RegisterPage.FormData) :
    (Key.email ∉ (RegisterPage.newErrors t f).keys ↔ LocalDomainTld f.email) ∧
    Key.email ∉ (RegisterPage.newErrors t { f with email := js "a@b.co" }).keys ∧
    Key.email ∈ (RegisterPage.newErrors t { f with email := js "abc" }).keys ∧
    Key.email ∈ (RegisterPage.newErrors t { f with email := js "a@b" }).keys ∧
    Key.email ∈ (RegisterPage.newErrors t { f with email := js "a b@c.com" }).keys := by
  have hm : ∀ g : RegisterPage.FormData,
      Key.email ∈ (RegisterPage.newErrors t g).keys ↔
        Blank g.email ∨ emailPattern.test g.email = false := by
    intro g
    rw [RegisterPage.keys_newErrors, condKeys_mem]; simp
  refine ⟨?_, ?_, ?_, ?_, ?_⟩
  · rw [hm, ← emailPattern_test_iff]
    constructor
    · intro h
      by_contra hc
      exact h (Or.inr (by simpa using hc))
    · rintro h (hb | hf)
      · exact Blank_of_localDomainTld_false _ ((emailPattern_test_iff _).1 h) hb
      · rw [h] at hf; exact Bool.noConfusion hf
  · rw [hm]
    have h1 : ¬ Blank (js "a@b.co") := by decide
    have h2 : emailPattern.test (js "a@b.co") = true := by decide
    simp [h1, h2]
  · rw [hm]; exact Or.inr (show emailPattern.test (js "abc") = false by decide)
  · rw [hm]; exact Or.inr (show emailPattern.test (js "a@b") = false by decide)
  · rw [hm]; exact Or.inr (show emailPattern.test (js "a b@c.com") = false by decide)

/-- C3: in the register `validateForm` the entry `confirmPassword` is set (to
the message `register.passwordMatch`) exactly when the password differs from
the confirmation, and is absent when they are equal, whatever the other fields
hold and whether or not the password has an error of its own. -/
theorem validateForm_confirmPassword (t : Translate) (f : RegisterPage.FormData) :
    ((RegisterPage.newErrors t f).get Key.confirmPassword =
      if f.password ≠ f.confirmPassword then some (t "register.passwordMatch") else none) ∧
    (Key.confirmPassword ∈ (RegisterPage.newErrors t f).keys ↔
      f.password ≠ f.confirmPassword) := by
  refine ⟨RegisterPage.confirmPassword_get t f, ?_⟩
  rw [RegisterPage.keys_newErrors, condKeys_mem]; simp

/-- C4: when the login form has a blank email or an empty password,
`handleSubmit` only prevents the default action and sets the error mapping
built from the form: that mapping is not empty, has the key `email` exactly
when the email is blank and the key `password` exactly when the password is
empty, and no other key; the handler performs no sign-in, no profile query, no
`onLogin`, schedules no navigation and never touches `loading`. -/
theorem login_handleSubmit_invalid (t : Translate) (ROLE_PERMISSIONS : RolePermissions)
    (env : LoginPage.Env) (st : LoginPage.State)
    (h : Blank st.formData.email ∨ st.formData.password = []) :
    LoginPage.handleSubmit t ROLE_PERMISSIONS env st.formData =
      [Effect.preventDefault, Effect.setErrors (LoginPage.newErrors t st.formData)] ∧
    (LoginPage.submit t ROLE_PERMISSIONS env st).errors = LoginPage.newErrors t st.formData ∧
    (LoginPage.submit t ROLE_PERMISSIONS env st).loading = st.loading ∧
    LoginPage.newErrors t st.formData ≠ [] ∧
    (Key.email ∈ (LoginPage.newErrors t st.formData).keys ↔ Blank st.formData.email) ∧
    (Key.password ∈ (LoginPage.newErrors t st.formData).keys ↔ st.formData.password = []) ∧
    (∀ k ∈ (LoginPage.newErrors t st.formData).keys, k = Key.email ∨ k = Key.password) ∧
    (∀ e ∈ LoginPage.handleSubmit t ROLE_PERMISSIONS env st.formData,
      (∀ a b, e ≠ Effect.signInWithPassword a b) ∧ (∀ i, e ≠ Effect.selectRole i) ∧
      (∀ u, e ≠ Effect.onLogin u) ∧ (∀ d ms, e ≠ Effect.setTimeout d ms) ∧
      (∀ b, e ≠ Effect.setLoading b)) := by
  have hk := LoginPage.keys_login_newErrors t st.formData
  have hne : LoginPage.newErrors t st.formData ≠ [] := by
    intro h0
    rw [h0] at hk
    rcases h with h | h <;> simp [Errors.keys, h] at hk
  have hpos : (LoginPage.newErrors t st.formData).keys.length > 0 := by
    rcases hn : LoginPage.newErrors t st.formData with _ | ⟨e, l⟩
    · exact absurd hn hne
    · simp [Errors.keys]
  have htrace : LoginPage.handleSubmit t ROLE_PERMISSIONS env st.formData =
      [Effect.preventDefault, Effect.setErrors (LoginPage.newErrors t st.formData)] := by
    unfold LoginPage.handleSubmit
    simp only [hpos, if_true]
  refine ⟨htrace, ?_, ?_, hne, ?_, ?_, ?_, ?_⟩
  · simp [LoginPage.submit, htrace, LoginPage.State.apply]
  · simp [LoginPage.submit, htrace, LoginPage.State.apply]
  · rw [hk]; split_ifs <;> simp_all
  · rw [hk]; split_ifs <;> simp_all
  · rw [hk]; intro k; split_ifs <;> simp <;> tauto
  · rw [htrace]
    intro e he
    simp only [List.mem_cons, List.mem_singleton, List.not_mem_nil, or_false] at he
    rcases he with rfl | rfl <;> simp

/-- C4 at the empty login form. -/
theorem login_handleSubmit_invalid_witness :
    (Blank LoginPage.State.initial.formData.email ∨
        LoginPage.State.initial.formData.password = []) ∧
      LoginPage.handleSubmit sampleT sampleRolePermissions
          (LoginPage.sampleEnv { user := none, error := none } none)
          LoginPage.State.initial.formData =
        [Effect.preventDefault,
          Effect.setErrors (LoginPage.newErrors sampleT LoginPage.State.initial.formData)] :=
  ⟨by decide,
    (login_handleSubmit_invalid sampleT sampleRolePermissions
      (LoginPage.sampleEnv { user := none, error := none } none) LoginPage.State.initial
      (by decide)).1⟩

/-- C5: when the login form is valid and the provider answers the sign-in
with an error, `handleSubmit` enters loading, calls the provider once, sets the
error mapping to the single entry `submit` holding the message `login.error`,
and leaves loading false. The mapping does not mention the provider error, so
any two provider errors give the same message. The profile store is not
queried, `onLogin` is not called and no navigation is scheduled. -/
theorem login_handleSubmit_provider_error (t : Translate)
    (ROLE_PERMISSIONS : RolePermissions) (env : LoginPage.Env) (st : LoginPage.State)
    (user : Option User) (error : AuthError)
    (hemail : ¬ Blank st.formData.email) (hpassword : st.formData.password ≠ [])
    (hprovider : env.signInWithPassword st.formData.email st.formData.password =
      .ok { user := user, error := some error }) :
    LoginPage.handleSubmit t ROLE_PERMISSIONS env st.formData =
      [Effect.preventDefault, Effect.setLoading true,
        Effect.signInWithPassword st.formData.email st.formData.password,
        Effect.setErrors [(Key.submit, t "login.error")],
        Effect.setLoading false, Effect.setLoading false] ∧
    (LoginPage.submit t ROLE_PERMISSIONS env st).errors = [(Key.submit, t "login.error")] ∧
    (LoginPage.submit t ROLE_PERMISSIONS env st).loading = false ∧
    (∀ (env2 : LoginPage.Env) (user2 : Option User) (error2 : AuthError),
      env2.signInWithPassword st.formData.email st.formData.password =
        .ok { user := user2, error := some error2 } →
      (LoginPage.submit t ROLE_PERMISSIONS env2 st).errors =
        (LoginPage.submit t ROLE_PERMISSIONS env st).errors) ∧
    (∀ e ∈ LoginPage.handleSubmit t ROLE_PERMISSIONS env st.formData,
      (∀ i, e ≠ Effect.selectRole i) ∧ (∀ u, e ≠ Effect.onLogin u) ∧
      (∀ d ms, e ≠ Effect.setTimeout d ms)) := by
  have htrace := LoginPage.handleSubmit_of_provider_error t ROLE_PERMISSIONS env st.formData
    user error hemail hpassword hprovider
  refine ⟨htrace, ?_, ?_, ?_, ?_⟩
  · simp [LoginPage.submit, htrace, LoginPage.State.apply]
  · simp [LoginPage.submit, htrace, LoginPage.State.apply]
  · intro env2 user2 error2 h2
    have htrace2 := LoginPage.handleSubmit_of_provider_error t ROLE_PERMISSIONS env2
      st.formData user2 error2 hemail hpassword h2
    simp [LoginPage.submit, htrace, htrace2, LoginPage.State.apply]
  · rw [htrace]
    intro e he
    simp only [List.mem_cons, List.mem_singleton, List.not_mem_nil, or_false] at he
    rcases he with rfl | rfl | rfl | rfl | rfl | rfl <;> simp

/-- C5 on the sample form with a provider that answers "Invalid login
credentials". -/
theorem login_handleSubmit_provider_error_witness :
    (¬ Blank LoginPage.sampleForm.email ∧ LoginPage.sampleForm.password ≠ []) ∧
      (LoginPage.submit sampleT sampleRolePermissions
          (LoginPage.sampleEnv
            { user := none, error := some { message := js "Invalid login credentials" } } none)
          { formData := LoginPage.sampleForm, errors := [], loading := false }).errors =
        [(Key.submit, sampleT "login.error")] :=
  ⟨⟨by decide, by decide⟩,
    (login_handleSubmit_provider_error sampleT sampleRolePermissions
      (LoginPage.sampleEnv
        { user := none, error := some { message := js "Invalid login credentials" } } none)
      { formData := LoginPage.sampleForm, errors := [], loading := false }
      none { message := js "Invalid login credentials" } (by decide) (by decide) rfl).2.1⟩

/-- C6: when the register form is valid and the provider answers the sign-up
with an error of message `m`, `handleSubmit` validates (setting the empty
mapping), enters loading, calls the provider once, sets the error mapping to
the single entry `submit` holding `m` itself, and leaves loading false. No
profile is inserted, no success message is set, `onLogin` is not called and no
navigation is scheduled. -/
theorem register_handleSubmit_provider_error (t : Translate) (ROLES : Roles)
    (env : RegisterPage.Env) (st : RegisterPage.State) (user : Option User)
    (authError : AuthError)
    (hvalid : (RegisterPage.validateForm t st.formData).2 = true)
    (hprovider : env.signUp st.formData.email st.formData.password =
      .ok { user := user, error := some authError }) :
    RegisterPage.handleSubmit t ROLES env st.formData =
      [Effect.preventDefault, Effect.setErrors [], Effect.setLoading true,
        Effect.signUp st.formData.email st.formData.password,
        Effect.setErrors [(Key.submit, authError.message)],
        Effect.setLoading false, Effect.setLoading false] ∧
    (RegisterPage.submit t ROLES env st).errors = [(Key.submit, authError.message)] ∧
    (RegisterPage.submit t ROLES env st).errors.get Key.submit = some authError.message ∧
    (RegisterPage.submit t ROLES env st).loading = false ∧
    (RegisterPage.submit t ROLES env st).successMessage = st.successMessage ∧
    (∀ e ∈ RegisterPage.handleSubmit t ROLES env st.formData,
      (∀ r, e ≠ Effect.insertProfile r) ∧ (∀ m, e ≠ Effect.setSuccessMessage m) ∧
      (∀ u, e ≠ Effect.onLogin u) ∧ (∀ d ms, e ≠ Effect.setTimeout d ms)) := by
  have hnil := RegisterPage.newErrors_eq_nil_of_valid t st.formData hvalid
  have htrace : RegisterPage.handleSubmit t ROLES env st.formData =
      [Effect.preventDefault, Effect.setErrors [], Effect.setLoading true,
        Effect.signUp st.formData.email st.formData.password,
        Effect.setErrors [(Key.submit, authError.message)],
        Effect.setLoading false, Effect.setLoading false] := by
    unfold RegisterPage.handleSubmit
    simp [RegisterPage.validateForm, hnil, Errors.keys, RegisterPage.tryBlock, hprovider,
      RegisterPage.catchBlock, Errors.set]
  refine ⟨htrace, ?_, ?_, ?_, ?_, ?_⟩
  · simp [RegisterPage.submit, htrace, RegisterPage.State.apply]
  · simp [RegisterPage.submit, htrace, RegisterPage.State.apply, Errors.get, List.lookup]
  · simp [RegisterPage.submit, htrace, RegisterPage.State.apply]
  · simp [RegisterPage.submit, htrace, RegisterPage.State.apply]
  · rw [htrace]
    intro e he
    simp only [List.mem_cons, List.mem_singleton, List.not_mem_nil, or_false] at he
    rcases he with rfl | rfl | rfl | rfl | rfl | rfl | rfl <;> simp

/-- C6 on the sample form with a provider that answers "Email already
registered". -/
theorem register_handleSubmit_provider_error_witness :
    (RegisterPage.validateForm sampleT RegisterPage.sampleForm).2 = true ∧
      (RegisterPage.submit sampleT sampleRoles
          (RegisterPage.sampleEnv
            { user := none, error := some { message := js "Email already registered" } } true)
          { formData := RegisterPage.sampleForm, errors := [], loading := false,
            successMessage := [] }).errors =
        [(Key.submit, js "Email already registered")] :=
  ⟨by decide,
    (register_handleSubmit_provider_error sampleT sampleRoles
      (RegisterPage.sampleEnv
        { user := none, error := some { message := js "Email already registered" } } true)
      { formData := RegisterPage.sampleForm, errors := [], loading := false,
        successMessage := [] }
      none { message := js "Email already registered" } (by decide) rfl).2.1⟩

/-- C7, as stated, fails. On the valid sample form, with a provider that
answers the sign-in with the user `U1` and no error: when the profile lookup
throws, `onLogin` is not called and no navigation is scheduled; when `onLogin`
throws, it was called but no navigation is scheduled; in both cases the generic
submit error is set instead. And when the lookup returns the empty role and the
table has an entry for the empty role that permits administrative access, the
destination is `home`, because the code tests the role for truthiness first. -/
theorem login_success_needs_returning_collaborators :
    (¬ Blank LoginPage.sampleForm.email ∧ LoginPage.sampleForm.password ≠ []) ∧
    LoginPage.handleSubmit sampleT sampleRolePermissions
        { signInWithPassword := fun _ _ =>
            .ok { user := some { id := js "U1" }, error := none }
          selectRole := fun _ => .error { value := js "Failed to fetch" }
          onLogin := fun _ => .ok () }
        LoginPage.sampleForm =
      [Effect.preventDefault, Effect.setLoading true,
        Effect.signInWithPassword (js "u@x.com") (js "secret1"),
        Effect.selectRole (js "U1"),
        Effect.setErrors [(Key.submit, js "register.error")],
        Effect.setLoading false] ∧
    LoginPage.handleSubmit sampleT sampleRolePermissions
        { signInWithPassword := fun _ _ =>
            .ok { user := some { id := js "U1" }, error := none }
          selectRole := fun _ => .ok (some { role := some (js "ADMIN") })
          onLogin := fun _ => .error { value := js "TypeError" } }
        LoginPage.sampleForm =
      [Effect.preventDefault, Effect.setLoading true,
        Effect.signInWithPassword (js "u@x.com") (js "secret1"),
        Effect.selectRole (js "U1"), Effect.onLogin { id := js "U1" },
        Effect.setErrors [(Key.submit, js "register.error")],
        Effect.setLoading false] ∧
    LoginPage.timerDestination (fun _ => some { canAccessAdmin := true })
        (some { role := some (js "") }) = Destination.home :=
  ⟨⟨by decide, by decide⟩, by decide, by decide, by decide⟩

/-- C7, amended: when the login form is valid, the provider answers the sign-in with a
user and no error, the profile lookup returns (a row or none) and `onLogin`
returns, `handleSubmit` calls `onLogin` once with that user and then schedules
one timer of 500 ms, the only one, whose callback navigates to `admin` exactly
when the lookup returned a row with a non-empty role whose entry in
`ROLE_PERMISSIONS` has `canAccessAdmin`, and to `home` otherwise, in particular
when there is no row or the table has no entry for the role. The callback
makes a single `onNavigate` call, so `home` is not visited when the
destination is `admin`. -/
theorem login_handleSubmit_success (t : Translate) (ROLE_PERMISSIONS : RolePermissions)
    (env : LoginPage.Env) (st : LoginPage.State) (user : User) (profile : Option Profile)
    (hemail : ¬ Blank st.formData.email) (hpassword : st.formData.password ≠ [])
    (hprovider : env.signInWithPassword st.formData.email st.formData.password =
      .ok { user := some user, error := none })
    (hprofile : env.selectRole user.id = .ok profile)
    (hcallback : env.onLogin user = .ok ()) :
    LoginPage.handleSubmit t ROLE_PERMISSIONS env st.formData =
      [Effect.preventDefault, Effect.setLoading true,
        Effect.signInWithPassword st.formData.email st.formData.password,
        Effect.selectRole user.id, Effect.onLogin user,
        Effect.setTimeout (LoginPage.timerDestination ROLE_PERMISSIONS profile) 500,
        Effect.setLoading false] ∧
    (LoginPage.handleSubmit t ROLE_PERMISSIONS env st.formData).count (Effect.onLogin user)
      = 1 ∧
    (∀ u, Effect.onLogin u ∈ LoginPage.handleSubmit t ROLE_PERMISSIONS env st.formData →
      u = user) ∧
    (LoginPage.handleSubmit t ROLE_PERMISSIONS env st.formData).count
      (Effect.setTimeout (LoginPage.timerDestination ROLE_PERMISSIONS profile) 500) = 1 ∧
    (∀ d ms, Effect.setTimeout d ms ∈ LoginPage.handleSubmit t ROLE_PERMISSIONS env st.formData →
      d = LoginPage.timerDestination ROLE_PERMISSIONS profile ∧ ms = 500) ∧
    (LoginPage.timerDestination ROLE_PERMISSIONS profile = Destination.admin ↔
      ∃ p role perms, profile = some p ∧ p.role = some role ∧ role ≠ [] ∧
        ROLE_PERMISSIONS role = some perms ∧ perms.canAccessAdmin = true) ∧
    (LoginPage.timerDestination ROLE_PERMISSIONS profile = Destination.home ↔
      ¬ ∃ p role perms, profile = some p ∧ p.role = some role ∧ role ≠ [] ∧
        ROLE_PERMISSIONS role = some perms ∧ perms.canAccessAdmin = true) ∧
    (profile = none → LoginPage.timerDestination ROLE_PERMISSIONS profile = Destination.home) ∧
    (∀ p role, profile = some p → p.role = some role → ROLE_PERMISSIONS role = none →
      LoginPage.timerDestination ROLE_PERMISSIONS profile = Destination.home) := by
  have hvalid := LoginPage.newErrors_eq_nil t st.formData hemail hpassword
  have htrace : LoginPage.handleSubmit t ROLE_PERMISSIONS env st.formData =
      [Effect.preventDefault, Effect.setLoading true,
        Effect.signInWithPassword st.formData.email st.formData.password,
        Effect.selectRole user.id, Effect.onLogin user,
        Effect.setTimeout (LoginPage.timerDestination ROLE_PERMISSIONS profile) 500,
        Effect.setLoading false] := by
    unfold LoginPage.handleSubmit
    simp [hvalid, Errors.keys, LoginPage.tryBlock, hprovider, hprofile, hcallback,
      LoginPage.catchBlock]
  have hadmin := LoginPage.timerDestination_admin_iff ROLE_PERMISSIONS profile
  refine ⟨htrace, ?_, ?_, ?_, ?_, hadmin, ?_, ?_, ?_⟩
  · rw [htrace]; simp [List.count_cons]
  · rw [htrace]; intro u hu; simpa using hu
  · rw [htrace]; simp [List.count_cons]
  · rw [htrace]; intro d ms h; simpa using h
  · rw [← hadmin]
    cases LoginPage.timerDestination ROLE_PERMISSIONS profile <;> simp
  · rintro rfl; rfl
  · intro p role hp hr hnone
    have hne : ¬ LoginPage.timerDestination ROLE_PERMISSIONS profile = Destination.admin := by
      rw [hadmin]
      rintro ⟨p1, role1, perms, hp1, hr1, _, hperm, _⟩
      rw [hp] at hp1
      cases hp1
      rw [hr] at hr1
      cases hr1
      rw [hnone] at hperm
      cases hperm
    cases hd : LoginPage.timerDestination ROLE_PERMISSIONS profile with
    | home => rfl
    | admin => exact absurd hd hne

/-- C7, amended, on the success scenario: user `U1`, profile role `ADMIN`. -/
theorem login_handleSubmit_success_witness :
    (¬ Blank LoginPage.sampleForm.email ∧ LoginPage.sampleForm.password ≠ []) ∧
      LoginPage.handleSubmit sampleT sampleRolePermissions
          (LoginPage.sampleEnv { user := some { id := js "U1" }, error := none }
            (some { role := some (js "ADMIN") }))
          LoginPage.sampleForm =
        [Effect.preventDefault, Effect.setLoading true,
          Effect.signInWithPassword (js "u@x.com") (js "secret1"),
          Effect.selectRole (js "U1"), Effect.onLogin { id := js "U1" },
          Effect.setTimeout Destination.admin 500, Effect.setLoading false] :=
  ⟨⟨by decide, by decide⟩,
    (login_handleSubmit_success sampleT sampleRolePermissions
      (LoginPage.sampleEnv { user := some { id := js "U1" }, error := none }
        (some { role := some (js "ADMIN") }))
      { formData := LoginPage.sampleForm, errors := [], loading := false }
      { id := js "U1" } (some { role := some (js "ADMIN") })
      (by decide) (by decide) rfl rfl rfl).1⟩

/-- C8, as stated, fails. On the valid sample form, with a provider that
answers the sign-up with the user `U2` and no error: when the insert throws, no
success message is set, `onLogin` is not called and no navigation is scheduled;
when `onLogin` throws, the success message was set and `onLogin` called, but no
navigation is scheduled; in both cases the generic submit error is set. -/
theorem register_success_needs_returning_collaborators :
    (RegisterPage.validateForm sampleT RegisterPage.sampleForm).2 = true ∧
    RegisterPage.handleSubmit sampleT sampleRoles
        { signUp := fun _ _ => .ok { user := some { id := js "U2" }, error := none }
          insertProfile := fun _ => .error { value := js "Failed to fetch" }
          onLogin := some (fun _ => .ok ()) }
        RegisterPage.sampleForm =
      [Effect.preventDefault, Effect.setErrors [], Effect.setLoading true,
        Effect.signUp (js "a@b.co") (js "secret1"),
        Effect.insertProfile
          (RegisterPage.profileData sampleRoles RegisterPage.sampleForm { id := js "U2" }),
        Effect.setErrors [(Key.submit, js "register.error")],
        Effect.setLoading false] ∧
    RegisterPage.handleSubmit sampleT sampleRoles
        { signUp := fun _ _ => .ok { user := some { id := js "U2" }, error := none }
          insertProfile := fun _ => .ok ()
          onLogin := some (fun _ => .error { value := js "TypeError" }) }
        RegisterPage.sampleForm =
      [Effect.preventDefault, Effect.setErrors [], Effect.setLoading true,
        Effect.signUp (js "a@b.co") (js "secret1"),
        Effect.insertProfile
          (RegisterPage.profileData sampleRoles RegisterPage.sampleForm { id := js "U2" }),
        Effect.setSuccessMessage (js "register.success"),
        Effect.onLogin { id := js "U2" },
        Effect.setErrors [(Key.submit, js "register.error")],
        Effect.setLoading false] :=
  ⟨by decide, by decide, by decide⟩

/-- C8, amended: when the register form is valid, the provider answers the sign-up
(called with the email and the password of the form and nothing else) with a
user and no error, the insert resolves and `onLogin`, when provided, returns,
`handleSubmit` performs in this order: the sign-up; one insert of the record
with the id of the new user, the full name, email and phone of the form, the
role `ROLES.STUDENT` and null subject, rating, income, activity and attendance
points; the success message `register.success`; `onLogin` with the user when
the callback is provided; one timer of 1500 ms whose callback navigates to
`home`. -/
theorem register_handleSubmit_success (t : Translate) (ROLES : Roles)
    (env : RegisterPage.Env) (st : RegisterPage.State) (user : User)
    (hvalid : (RegisterPage.validateForm t st.formData).2 = true)
    (hprovider : env.signUp st.formData.email st.formData.password =
      .ok { user := some user, error := none })
    (hinsert : env.insertProfile (RegisterPage.profileData ROLES st.formData user) = .ok ())
    (hcallback : ∀ onLogin, env.onLogin = some onLogin → onLogin user = .ok ()) :
    RegisterPage.handleSubmit t ROLES env st.formData =
      [Effect.preventDefault, Effect.setErrors [], Effect.setLoading true,
        Effect.signUp st.formData.email st.formData.password,
        Effect.insertProfile
          { user_id := user.id
            full_name := st.formData.fullName
            email := st.formData.email
            phone := st.formData.phone
            role := ROLES.STUDENT
            subject := none
            rating := none
            income := none
            activity_points := none
            attendance_points := none },
        Effect.setSuccessMessage (t "register.success")] ++
      (if env.onLogin.isSome then [Effect.onLogin user] else []) ++
      [Effect.setTimeout Destination.home 1500, Effect.setLoading false] ∧
    (∀ r, Effect.insertProfile r ∈ RegisterPage.handleSubmit t ROLES env st.formData →
      r = RegisterPage.profileData ROLES st.formData user) ∧
    (RegisterPage.handleSubmit t ROLES env st.formData).count
      (Effect.insertProfile (RegisterPage.profileData ROLES st.formData user)) = 1 ∧
    (∀ d ms, Effect.setTimeout d ms ∈ RegisterPage.handleSubmit t ROLES env st.formData →
      d = Destination.home ∧ ms = 1500) ∧
    (RegisterPage.submit t ROLES env st).successMessage = t "register.success" := by
  have hnil := RegisterPage.newErrors_eq_nil_of_valid t st.formData hvalid
  have htrace : RegisterPage.handleSubmit t ROLES env st.formData =
      [Effect.preventDefault, Effect.setErrors [], Effect.setLoading true,
        Effect.signUp st.formData.email st.formData.password,
        Effect.insertProfile (RegisterPage.profileData ROLES st.formData user),
        Effect.setSuccessMessage (t "register.success")] ++
      (if env.onLogin.isSome then [Effect.onLogin user] else []) ++
      [Effect.setTimeout Destination.home 1500, Effect.setLoading false] := by
    unfold RegisterPage.handleSubmit
    rcases hcb : env.onLogin with _ | onLogin
    · simp [RegisterPage.validateForm, hnil, Errors.keys, RegisterPage.tryBlock, hprovider,
        hinsert, hcb, RegisterPage.catchBlock]
    · have := hcallback onLogin hcb
      simp [RegisterPage.validateForm, hnil, Errors.keys, RegisterPage.tryBlock, hprovider,
        hinsert, hcb, this, RegisterPage.catchBlock]
  refine ⟨htrace, ?_, ?_, ?_, ?_⟩
  · rw [htrace]; intro r hr
    cases h : env.onLogin <;> simp [h] at hr <;> exact hr
  · rw [htrace]
    cases h : env.onLogin <;> simp [List.count_cons]
  · rw [htrace]; intro d ms hd
    cases h : env.onLogin <;> simp [h] at hd <;> exact hd
  · unfold RegisterPage.submit
    rw [htrace]
    cases h : env.onLogin <;> simp [RegisterPage.State.apply]

/-- C8, amended, on the sample form: user `U2`, with an `onLogin` callback. -/
theorem register_handleSubmit_success_witness :
    (RegisterPage.validateForm sampleT RegisterPage.sampleForm).2 = true ∧
      (RegisterPage.submit sampleT sampleRoles
          (RegisterPage.sampleEnv { user := some { id := js "U2" }, error := none } true)
          { formData := RegisterPage.sampleForm, errors := [], loading := false,
            successMessage := [] }).successMessage = sampleT "register.success" :=
  ⟨by decide,
    (register_handleSubmit_success sampleT sampleRoles
      (RegisterPage.sampleEnv { user := some { id := js "U2" }, error := none } true)
      { formData := RegisterPage.sampleForm, errors := [], loading := false,
        successMessage := [] }
      { id := js "U2" } (by decide) rfl rfl (fun _ h => by cases h; rfl)).2.2.2.2⟩

/-- C9: on the login page and on the register page, `handleChange` for a field
sets that field of the form data to the new value and leaves the other fields
(and `loading`, and the success message) alone. When the field has an error
(a truthy entry), its entry becomes the empty string, so the field has no
error any more, the entry of every other key, `submit` included, is what it
was, and the keys of the mapping are unchanged. When the field has no error the
error mapping is unchanged. -/
theorem handleChange_clears_only_its_field (sl : LoginPage.State) (nl : LoginPage.Field)
    (sr : RegisterPage.State) (nr : RegisterPage.Field) (value : JSString) :
    ((LoginPage.handleChange sl nl value).formData.get nl = value ∧
      (∀ m, m ≠ nl → (LoginPage.handleChange sl nl value).formData.get m = sl.formData.get m) ∧
      (LoginPage.handleChange sl nl value).loading = sl.loading ∧
      (truthy? (sl.errors.get nl.key) = true →
        (LoginPage.handleChange sl nl value).errors.get nl.key = some [] ∧
        truthy? ((LoginPage.handleChange sl nl value).errors.get nl.key) = false ∧
        (∀ k, k ≠ nl.key →
          (LoginPage.handleChange sl nl value).errors.get k = sl.errors.get k) ∧
        (LoginPage.handleChange sl nl value).errors.keys = sl.errors.keys) ∧
      (truthy? (sl.errors.get nl.key) = false →
        (LoginPage.handleChange sl nl value).errors = sl.errors)) ∧
    ((RegisterPage.handleChange sr nr value).formData.get nr = value ∧
      (∀ m, m ≠ nr →
        (RegisterPage.handleChange sr nr value).formData.get m = sr.formData.get m) ∧
      (RegisterPage.handleChange sr nr value).loading = sr.loading ∧
      (RegisterPage.handleChange sr nr value).successMessage = sr.successMessage ∧
      (truthy? (sr.errors.get nr.key) = true →
        (RegisterPage.handleChange sr nr value).errors.get nr.key = some [] ∧
        truthy? ((RegisterPage.handleChange sr nr value).errors.get nr.key) = false ∧
        (∀ k, k ≠ nr.key →
          (RegisterPage.handleChange sr nr value).errors.get k = sr.errors.get k) ∧
        (RegisterPage.handleChange sr nr value).errors.keys = sr.errors.keys) ∧
      (truthy? (sr.errors.get nr.key) = false →
        (RegisterPage.handleChange sr nr value).errors = sr.errors)) := by
  refine ⟨⟨?_, ?_, ?_, ?_, ?_⟩, ⟨?_, ?_, ?_, ?_, ?_, ?_⟩⟩
  · unfold LoginPage.handleChange
    cases nl <;> split_ifs <;> rfl
  · intro m hm
    unfold LoginPage.handleChange
    cases nl <;> cases m <;> first | exact absurd rfl hm | (split_ifs <;> rfl)
  · unfold LoginPage.handleChange
    split_ifs <;> rfl
  · intro h
    have he : (LoginPage.handleChange sl nl value).errors = sl.errors.set nl.key [] := by
      unfold LoginPage.handleChange; simp [h]
    rw [he, Errors.get_set_self]
    exact ⟨rfl, rfl, fun k hk => Errors.get_set_of_ne _ _ _ _ hk,
      Errors.keys_set_of_truthy _ _ _ h⟩
  · intro h
    unfold LoginPage.handleChange; simp [h]
  · unfold RegisterPage.handleChange
    cases nr <;> split_ifs <;> rfl
  · intro m hm
    unfold RegisterPage.handleChange
    cases nr <;> cases m <;> first | exact absurd rfl hm | (split_ifs <;> rfl)
  · unfold RegisterPage.handleChange
    split_ifs <;> rfl
  · unfold RegisterPage.handleChange
    split_ifs <;> rfl
  · intro h
    have he : (RegisterPage.handleChange sr nr value).errors = sr.errors.set nr.key [] := by
      unfold RegisterPage.handleChange; simp [h]
    rw [he, Errors.get_set_self]
    exact ⟨rfl, rfl, fun k hk => Errors.get_set_of_ne _ _ _ _ hk,
      Errors.keys_set_of_truthy _ _ _ h⟩
  · intro h
    unfold RegisterPage.handleChange; simp [h]

/-- C9 on a login page showing an email, a password and a submit error, and a
register page showing a phone and a submit error: editing the email (the
phone) blanks that entry only. -/
theorem handleChange_clears_only_its_field_witness :
    (truthy? (Errors.get [(Key.email, js "e"), (Key.password, js "p"), (Key.submit, js "s")]
        LoginPage.Field.email.key) = true ∧
      truthy? (Errors.get [(Key.phone, js "p"), (Key.submit, js "s")]
        RegisterPage.Field.phone.key) = true) ∧
    (LoginPage.handleChange
        { formData := { email := [], password := [] },
          errors := [(Key.email, js "e"), (Key.password, js "p"), (Key.submit, js "s")],
          loading := false }
        LoginPage.Field.email (js "a")).errors.get Key.email = some [] ∧
    (RegisterPage.handleChange
        { formData := RegisterPage.sampleForm,
          errors := [(Key.phone, js "p"), (Key.submit, js "s")],
          loading := false, successMessage := [] }
        RegisterPage.Field.phone (js "1")).errors.get Key.phone = some [] :=
  ⟨⟨by decide, by decide⟩,
    ((handleChange_clears_only_its_field
      { formData := { email := [], password := [] },
        errors := [(Key.email, js "e"), (Key.password, js "p"), (Key.submit, js "s")],
        loading := false }
      LoginPage.Field.email
      { formData := RegisterPage.sampleForm,
        errors := [(Key.phone, js "p"), (Key.submit, js "s")],
        loading := false, successMessage := [] }
      RegisterPage.Field.phone (js "a")).1.2.2.2.1 (by decide)).1,
    ((handleChange_clears_only_its_field
      { formData := { email := [], password := [] },
        errors := [(Key.email, js "e"), (Key.password, js "p"), (Key.submit, js "s")],
        loading := false }
      LoginPage.Field.email
      { formData := RegisterPage.sampleForm,
        errors := [(Key.phone, js "p"), (Key.submit, js "s")],
        loading := false, successMessage := [] }
      RegisterPage.Field.phone (js "1")).2.2.2.2.2.1 (by decide)).1⟩

/-- C10, as stated, fails: submitting the empty login form sets an email error,
and after the user then types `a` into the email field the state, reachable
from mount, still has the key `email` in the error mapping, mapped to the empty
string. -/
theorem error_key_kept_after_edit :
    LoginPage.Reachable sampleT sampleRolePermissions
      (LoginPage.handleChange
        (LoginPage.submit sampleT sampleRolePermissions
          (LoginPage.sampleEnv { user := none, error := none } none) LoginPage.State.initial)
        LoginPage.Field.email (js "a")) ∧
    truthy? ((LoginPage.submit sampleT sampleRolePermissions
      (LoginPage.sampleEnv { user := none, error := none } none)
      LoginPage.State.initial).errors.get Key.email) = true ∧
    Key.email ∈ (LoginPage.handleChange
        (LoginPage.submit sampleT sampleRolePermissions
          (LoginPage.sampleEnv { user := none, error := none } none) LoginPage.State.initial)
        LoginPage.Field.email (js "a")).errors.keys ∧
    (LoginPage.handleChange
        (LoginPage.submit sampleT sampleRolePermissions
          (LoginPage.sampleEnv { user := none, error := none } none) LoginPage.State.initial)
        LoginPage.Field.email (js "a")).errors =
      [(Key.email, []), (Key.password, js "register.passwordError")] :=
  ⟨LoginPage.Reachable.change _ _ (LoginPage.Reachable.submit _ LoginPage.Reachable.initial),
    by decide, by decide, by decide⟩

/-- C10, amended: in every state of the login page and of the register page
reachable from mount by edits and submissions, every entry of the error
mapping is either a message the page sets for that key or, for a form field
only (never `submit`), the empty string; and after the user edits a field that
had an error, the key of that field is still in the mapping and maps to the
empty string, so the field shows no error. -/
theorem error_entries_of_reachable (t : Translate) (ROLE_PERMISSIONS : RolePermissions)
    (ROLES : Roles) (sl : LoginPage.State) (sr : RegisterPage.State)
    (hl : LoginPage.Reachable t ROLE_PERMISSIONS sl)
    (hr : RegisterPage.Reachable t ROLES sr) :
    ((∀ k v, sl.errors.get k = some v →
        (v = [] ∧ k ≠ Key.submit) ∨ LoginPage.IsMessage t k v) ∧
      (∀ name value, truthy? (sl.errors.get name.key) = true →
        name.key ∈ (LoginPage.handleChange sl name value).errors.keys ∧
        (LoginPage.handleChange sl name value).errors.get name.key = some [] ∧
        truthy? ((LoginPage.handleChange sl name value).errors.get name.key) = false)) ∧
    ((∀ k v, sr.errors.get k = some v →
        (v = [] ∧ k ≠ Key.submit) ∨ RegisterPage.IsMessage t k v) ∧
      (∀ name value, truthy? (sr.errors.get name.key) = true →
        name.key ∈ (RegisterPage.handleChange sr name value).errors.keys ∧
        (RegisterPage.handleChange sr name value).errors.get name.key = some [] ∧
        truthy? ((RegisterPage.handleChange sr name value).errors.get name.key) = false)) := by
  refine ⟨⟨LoginPage.entries_of_reachable t ROLE_PERMISSIONS sl hl, ?_⟩,
    ⟨RegisterPage.entries_of_reachable_register t ROLES sr hr, ?_⟩⟩
  · intro name value h
    have he : (LoginPage.handleChange sl name value).errors = sl.errors.set name.key [] := by
      unfold LoginPage.handleChange; simp [h]
    have hg : (sl.errors.set name.key []).get name.key = some [] := Errors.get_set_self _ _ _
    rw [he, Errors.mem_keys_iff_get, hg]
    exact ⟨⟨[], rfl⟩, rfl, rfl⟩
  · intro name value h
    have he : (RegisterPage.handleChange sr name value).errors = sr.errors.set name.key [] := by
      unfold RegisterPage.handleChange; simp [h]
    have hg : (sr.errors.set name.key []).get name.key = some [] := Errors.get_set_self _ _ _
    rw [he, Errors.mem_keys_iff_get, hg]
    exact ⟨⟨[], rfl⟩, rfl, rfl⟩

/-- C10, amended, on the login page after the empty form was submitted and on
the register page after the empty form was submitted: editing the email keeps
its key, mapped to the empty string. -/
theorem error_entries_of_reachable_witness :
    (LoginPage.Reachable sampleT sampleRolePermissions
        (LoginPage.submit sampleT sampleRolePermissions
          (LoginPage.sampleEnv { user := none, error := none } none) LoginPage.State.initial) ∧
      RegisterPage.Reachable sampleT sampleRoles
        (RegisterPage.submit sampleT sampleRoles
          (RegisterPage.sampleEnv { user := none, error := none } true)
          RegisterPage.State.initial)) ∧
    (LoginPage.handleChange
        (LoginPage.submit sampleT sampleRolePermissions
          (LoginPage.sampleEnv { user := none, error := none } none) LoginPage.State.initial)
        LoginPage.Field.email (js "a")).errors.get LoginPage.Field.email.key = some [] ∧
    (RegisterPage.handleChange
        (RegisterPage.submit sampleT sampleRoles
          (RegisterPage.sampleEnv { user := none, error := none } true)
          RegisterPage.State.initial)
        RegisterPage.Field.email (js "a")).errors.get RegisterPage.Field.email.key =
      some [] :=
  ⟨⟨LoginPage.Reachable.submit _ LoginPage.Reachable.initial,
      RegisterPage.Reachable.submit _ RegisterPage.Reachable.initial⟩,
    ((error_entries_of_reachable sampleT sampleRolePermissions sampleRoles _ _
      (LoginPage.Reachable.submit
        (LoginPage.sampleEnv { user := none, error := none } none)
        LoginPage.Reachable.initial)
      (RegisterPage.Reachable.submit
        (RegisterPage.sampleEnv { user := none, error := none } true)
        RegisterPage.Reachable.initial)).1.2
      LoginPage.Field.email (js "a") (by decide)).2.1,
    ((error_entries_of_reachable sampleT sampleRolePermissions sampleRoles _ _
      (LoginPage.Reachable.submit
        (LoginPage.sampleEnv { user := none, error := none } none)
        LoginPage.Reachable.initial)
      (RegisterPage.Reachable.submit
        (RegisterPage.sampleEnv { user := none, error := none } true)
        RegisterPage.Reachable.initial)).2.2
      RegisterPage.Field.email (js "a") (by decide)).2.1⟩

/-! ## Lemmas: the shape of a submission -/

/-- The `try` block of the login page starts with the provider call; what
follows, the `catch` clause included, neither calls the provider again nor sets
loading to true. -/
theorem LoginPage.tryBlock_shape (t : Translate) (ROLE_PERMISSIONS : RolePermissions)
    (env : LoginPage.Env) (f : LoginPage.FormData) :
    ∃ rest, (LoginPage.tryBlock t ROLE_PERMISSIONS env f).1 =
        Effect.signInWithPassword f.email f.password :: rest ∧
      ∀ e ∈ rest ++ LoginPage.catchBlock t (LoginPage.tryBlock t ROLE_PERMISSIONS env f).2,
        e ≠ Effect.setLoading true ∧ e.isProviderCall = false := by
  unfold LoginPage.tryBlock
  rcases h1 : env.signInWithPassword f.email f.password with e | ⟨user, error⟩
  · refine ⟨_, rfl, ?_⟩
    simp [LoginPage.catchBlock, Effect.isProviderCall]
  · rcases error with _ | error
    · rcases user with _ | user
      · refine ⟨_, rfl, ?_⟩
        simp [LoginPage.catchBlock, Effect.isProviderCall]
      · rcases h2 : env.selectRole user.id with e | profile
        · refine ⟨[Effect.selectRole user.id], by simp [h2], ?_⟩
          simp [h2, LoginPage.catchBlock, Effect.isProviderCall]
        · rcases h3 : env.onLogin user with e | _
          · refine ⟨[Effect.selectRole user.id, Effect.onLogin user], by simp [h2, h3], ?_⟩
            simp [h2, h3, LoginPage.catchBlock, Effect.isProviderCall]
          · refine ⟨[Effect.selectRole user.id, Effect.onLogin user,
              Effect.setTimeout (LoginPage.timerDestination ROLE_PERMISSIONS profile) 500],
              by simp [h2, h3], ?_⟩
            simp [h2, h3, LoginPage.catchBlock, Effect.isProviderCall]
    · refine ⟨_, rfl, ?_⟩
      simp [LoginPage.catchBlock, Effect.isProviderCall]

/-- The `try` block of the register page starts with the provider call; what
follows, the `catch` clause included, neither calls the provider again nor sets
loading to true. -/
theorem RegisterPage.tryBlock_shape_register (t : Translate) (ROLES : Roles)
    (env : RegisterPage.Env) (f : RegisterPage.FormData) :
    ∃ rest, (RegisterPage.tryBlock t ROLES env f).1 =
        Effect.signUp f.email f.password :: rest ∧
      ∀ e ∈ rest ++ RegisterPage.catchBlock t (RegisterPage.tryBlock t ROLES env f).2,
        e ≠ Effect.setLoading true ∧ e.isProviderCall = false := by
  unfold RegisterPage.tryBlock
  rcases h1 : env.signUp f.email f.password with e | ⟨user, error⟩
  · refine ⟨_, rfl, ?_⟩
    simp [RegisterPage.catchBlock, Effect.isProviderCall]
  · rcases error with _ | error
    · rcases user with _ | user
      · refine ⟨_, rfl, ?_⟩
        simp [RegisterPage.catchBlock, Effect.isProviderCall]
      · rcases h2 : env.insertProfile (RegisterPage.profileData ROLES f user) with e | _
        · refine ⟨[Effect.insertProfile (RegisterPage.profileData ROLES f user)],
            by simp [h2], ?_⟩
          simp [h2, RegisterPage.catchBlock, Effect.isProviderCall]
        · rcases h3 : env.onLogin with _ | cb
          · refine ⟨[Effect.insertProfile (RegisterPage.profileData ROLES f user),
              Effect.setSuccessMessage (t "register.success"),
              Effect.setTimeout Destination.home 1500], by simp [h2], ?_⟩
            simp [h2, RegisterPage.catchBlock, Effect.isProviderCall]
          · rcases h4 : cb user with e | _
            · refine ⟨[Effect.insertProfile (RegisterPage.profileData ROLES f user),
                Effect.setSuccessMessage (t "register.success"), Effect.onLogin user],
                by simp [h2, h4], ?_⟩
              simp [h2, h4, RegisterPage.catchBlock, Effect.isProviderCall]
            · refine ⟨[Effect.insertProfile (RegisterPage.profileData ROLES f user),
                Effect.setSuccessMessage (t "register.success"), Effect.onLogin user,
                Effect.setTimeout Destination.home 1500], by simp [h2, h4], ?_⟩
              simp [h2, h4, RegisterPage.catchBlock, Effect.isProviderCall]
    · refine ⟨_, rfl, ?_⟩
      simp [RegisterPage.catchBlock, Effect.isProviderCall]

/-- The outcomes of a valid submission on the login page. -/
theorem LoginPage.outcome (t : Translate) (ROLE_PERMISSIONS : RolePermissions)
    (env : LoginPage.Env) (st : LoginPage.State)
    (hemail : ¬ Blank st.formData.email) (hpassword : st.formData.password ≠ []) :
    (env.signInWithPassword st.formData.email st.formData.password =
        .ok { user := none, error := none } →
      LoginPage.handleSubmit t ROLE_PERMISSIONS env st.formData =
        [Effect.preventDefault, Effect.setLoading true,
          Effect.signInWithPassword st.formData.email st.formData.password,
          Effect.setLoading false] ∧
      (LoginPage.submit t ROLE_PERMISSIONS env st).errors = st.errors ∧
      navigationScheduled (LoginPage.handleSubmit t ROLE_PERMISSIONS env st.formData) = false ∧
      loginNotified (LoginPage.handleSubmit t ROLE_PERMISSIONS env st.formData) = false) ∧
    (env.signInWithPassword st.formData.email st.formData.password ≠
        .ok { user := none, error := none } →
      (hasSubmitError (LoginPage.submit t ROLE_PERMISSIONS env st).errors = true ∧
        navigationScheduled (LoginPage.handleSubmit t ROLE_PERMISSIONS env st.formData) =
          false ∧
        ((LoginPage.submit t ROLE_PERMISSIONS env st).errors =
            [(Key.submit, t "login.error")] ∨
          (LoginPage.submit t ROLE_PERMISSIONS env st).errors =
            [(Key.submit, t "register.error")])) ∨
      (loginNotified (LoginPage.handleSubmit t ROLE_PERMISSIONS env st.formData) = true ∧
        navigationScheduled (LoginPage.handleSubmit t ROLE_PERMISSIONS env st.formData) =
          true ∧
        (LoginPage.submit t ROLE_PERMISSIONS env st).errors = st.errors)) ∧
    (∀ e, (LoginPage.tryBlock t ROLE_PERMISSIONS env st.formData).2 = Completion.threw e →
      (LoginPage.submit t ROLE_PERMISSIONS env st).errors =
        [(Key.submit, t "register.error")]) := by
  have hn := LoginPage.newErrors_eq_nil t st.formData hemail hpassword
  rcases h1 : env.signInWithPassword st.formData.email st.formData.password
    with e | ⟨user, error⟩
  · have htry : LoginPage.tryBlock t ROLE_PERMISSIONS env st.formData =
        ([Effect.signInWithPassword st.formData.email st.formData.password],
          Completion.threw e) := by
      unfold LoginPage.tryBlock; simp [h1]
    simp [LoginPage.submit, LoginPage.handleSubmit, hn, Errors.keys, htry,
      LoginPage.catchBlock, LoginPage.State.apply, navigationScheduled, loginNotified,
      hasSubmitError, Effect.isSetTimeout, Effect.isOnLogin, Errors.set, Errors.get,
      List.lookup]
  · rcases error with _ | error
    · rcases user with _ | user
      · have htry : LoginPage.tryBlock t ROLE_PERMISSIONS env st.formData =
            ([Effect.signInWithPassword st.formData.email st.formData.password],
              Completion.normal) := by
          unfold LoginPage.tryBlock; simp [h1]
        simp [LoginPage.submit, LoginPage.handleSubmit, hn, Errors.keys, htry,
          LoginPage.catchBlock, LoginPage.State.apply, navigationScheduled, loginNotified,
          hasSubmitError, Effect.isSetTimeout, Effect.isOnLogin, Errors.set, Errors.get,
          List.lookup]
      · rcases h2 : env.selectRole user.id with e | profile
        · have htry : LoginPage.tryBlock t ROLE_PERMISSIONS env st.formData =
              ([Effect.signInWithPassword st.formData.email st.formData.password, Effect.selectRole user.id],
                Completion.threw e) := by
            unfold LoginPage.tryBlock; simp [h1, h2]
          simp [LoginPage.submit, LoginPage.handleSubmit, hn, Errors.keys, htry,
            LoginPage.catchBlock, LoginPage.State.apply, navigationScheduled, loginNotified,
            hasSubmitError, Effect.isSetTimeout, Effect.isOnLogin, Errors.set, Errors.get,
            List.lookup]
        · rcases h3 : env.onLogin user with e | _
          · have htry : LoginPage.tryBlock t ROLE_PERMISSIONS env st.formData =
                ([Effect.signInWithPassword st.formData.email st.formData.password, Effect.selectRole user.id, Effect.onLogin user],
                  Completion.threw e) := by
              unfold LoginPage.tryBlock; simp [h1, h2, h3]
            simp [LoginPage.submit, LoginPage.handleSubmit, hn, Errors.keys, htry,
              LoginPage.catchBlock, LoginPage.State.apply, navigationScheduled, loginNotified,
              hasSubmitError, Effect.isSetTimeout, Effect.isOnLogin, Errors.set, Errors.get,
              List.lookup]
          · have htry : LoginPage.tryBlock t ROLE_PERMISSIONS env st.formData =
                ([Effect.signInWithPassword st.formData.email st.formData.password, Effect.selectRole user.id, Effect.onLogin user, Effect.setTimeout (LoginPage.timerDestination ROLE_PERMISSIONS profile) 500],
                  Completion.normal) := by
              unfold LoginPage.tryBlock; simp [h1, h2, h3]
            simp [LoginPage.submit, LoginPage.handleSubmit, hn, Errors.keys, htry,
              LoginPage.catchBlock, LoginPage.State.apply, navigationScheduled, loginNotified,
              hasSubmitError, Effect.isSetTimeout, Effect.isOnLogin, Errors.set, Errors.get,
              List.lookup]
    · have htry : LoginPage.tryBlock t ROLE_PERMISSIONS env st.formData =
          ([Effect.signInWithPassword st.formData.email st.formData.password, Effect.setErrors [(Key.submit, t "login.error")], Effect.setLoading false],
            Completion.returned) := by
        unfold LoginPage.tryBlock; simp [h1, Errors.set]
      simp [LoginPage.submit, LoginPage.handleSubmit, hn, Errors.keys, htry,
        LoginPage.catchBlock, LoginPage.State.apply, navigationScheduled, loginNotified,
        hasSubmitError, Effect.isSetTimeout, Effect.isOnLogin, Errors.set, Errors.get,
        List.lookup]

/-- The outcomes of a valid submission on the register page. -/
theorem RegisterPage.outcome_register (t : Translate) (ROLES : Roles)
    (env : RegisterPage.Env) (st : RegisterPage.State)
    (hvalid : (RegisterPage.validateForm t st.formData).2 = true) :
    (env.signUp st.formData.email st.formData.password =
        .ok { user := none, error := none } →
      RegisterPage.handleSubmit t ROLES env st.formData =
        [Effect.preventDefault, Effect.setErrors [], Effect.setLoading true,
          Effect.signUp st.formData.email st.formData.password, Effect.setLoading false] ∧
      (RegisterPage.submit t ROLES env st).errors = [] ∧
      navigationScheduled (RegisterPage.handleSubmit t ROLES env st.formData) = false ∧
      loginNotified (RegisterPage.handleSubmit t ROLES env st.formData) = false) ∧
    (env.signUp st.formData.email st.formData.password ≠
        .ok { user := none, error := none } →
      (hasSubmitError (RegisterPage.submit t ROLES env st).errors = true ∧
        navigationScheduled (RegisterPage.handleSubmit t ROLES env st.formData) = false ∧
        ∃ m, (RegisterPage.submit t ROLES env st).errors = [(Key.submit, m)]) ∨
      (navigationScheduled (RegisterPage.handleSubmit t ROLES env st.formData) = true ∧
        loginNotified (RegisterPage.handleSubmit t ROLES env st.formData) =
          env.onLogin.isSome ∧
        (RegisterPage.submit t ROLES env st).errors = [] ∧
        (RegisterPage.submit t ROLES env st).successMessage = t "register.success")) ∧
    (∀ e, (RegisterPage.tryBlock t ROLES env st.formData).2 = Completion.threw e →
      (RegisterPage.submit t ROLES env st).errors = [(Key.submit, t "register.error")]) := by
  have hn := RegisterPage.newErrors_eq_nil_of_valid t st.formData hvalid
  rcases h1 : env.signUp st.formData.email st.formData.password with e | ⟨user, error⟩
  · have htry : RegisterPage.tryBlock t ROLES env st.formData =
        ([Effect.signUp st.formData.email st.formData.password],
          Completion.threw e) := by
      unfold RegisterPage.tryBlock; simp [h1]
    simp [RegisterPage.submit, RegisterPage.handleSubmit, RegisterPage.validateForm, hn,
      Errors.keys, htry, RegisterPage.catchBlock, RegisterPage.State.apply,
      navigationScheduled, loginNotified, hasSubmitError, Effect.isSetTimeout,
      Effect.isOnLogin, Errors.set, Errors.get, List.lookup]
  · rcases error with _ | error
    · rcases user with _ | user
      · have htry : RegisterPage.tryBlock t ROLES env st.formData =
            ([Effect.signUp st.formData.email st.formData.password],
              Completion.normal) := by
          unfold RegisterPage.tryBlock; simp [h1]
        simp [RegisterPage.submit, RegisterPage.handleSubmit, RegisterPage.validateForm, hn,
          Errors.keys, htry, RegisterPage.catchBlock, RegisterPage.State.apply,
          navigationScheduled, loginNotified, hasSubmitError, Effect.isSetTimeout,
          Effect.isOnLogin, Errors.set, Errors.get, List.lookup]
      · rcases h2 : env.insertProfile (RegisterPage.profileData ROLES st.formData user)
            with e | _
        · have htry : RegisterPage.tryBlock t ROLES env st.formData =
              ([Effect.signUp st.formData.email st.formData.password,
                Effect.insertProfile (RegisterPage.profileData ROLES st.formData user)],
                Completion.threw e) := by
            unfold RegisterPage.tryBlock; simp [h1, h2]
          simp [RegisterPage.submit, RegisterPage.handleSubmit, RegisterPage.validateForm, hn,
            Errors.keys, htry, RegisterPage.catchBlock, RegisterPage.State.apply,
            navigationScheduled, loginNotified, hasSubmitError, Effect.isSetTimeout,
            Effect.isOnLogin, Errors.set, Errors.get, List.lookup]
        · rcases h3 : env.onLogin with _ | cb
          · have htry : RegisterPage.tryBlock t ROLES env st.formData =
                ([Effect.signUp st.formData.email st.formData.password,
                  Effect.insertProfile (RegisterPage.profileData ROLES st.formData user),
                  Effect.setSuccessMessage (t "register.success"),
                  Effect.setTimeout Destination.home 1500],
                  Completion.normal) := by
              unfold RegisterPage.tryBlock; simp [h1, h2, h3]
            simp [RegisterPage.submit, RegisterPage.handleSubmit, RegisterPage.validateForm, hn,
              Errors.keys, htry, RegisterPage.catchBlock, RegisterPage.State.apply,
              navigationScheduled, loginNotified, hasSubmitError, Effect.isSetTimeout,
              Effect.isOnLogin, Errors.set, Errors.get, List.lookup]
          · rcases h4 : cb user with e | _
            · have htry : RegisterPage.tryBlock t ROLES env st.formData =
                  ([Effect.signUp st.formData.email st.formData.password,
                    Effect.insertProfile (RegisterPage.profileData ROLES st.formData user),
                    Effect.setSuccessMessage (t "register.success"),
                    Effect.onLogin user],
                    Completion.threw e) := by
                unfold RegisterPage.tryBlock; simp [h1, h2, h3, h4]
              simp [RegisterPage.submit, RegisterPage.handleSubmit, RegisterPage.validateForm, hn,
                Errors.keys, htry, RegisterPage.catchBlock, RegisterPage.State.apply,
                navigationScheduled, loginNotified, hasSubmitError, Effect.isSetTimeout,
                Effect.isOnLogin, Errors.set, Errors.get, List.lookup]
            · have htry : RegisterPage.tryBlock t ROLES env st.formData =
                  ([Effect.signUp st.formData.email st.formData.password,
                    Effect.insertProfile (RegisterPage.profileData ROLES st.formData user),
                    Effect.setSuccessMessage (t "register.success"),
                    Effect.onLogin user,
                    Effect.setTimeout Destination.home 1500],
                    Completion.normal) := by
                unfold RegisterPage.tryBlock; simp [h1, h2, h3, h4]
              simp [RegisterPage.submit, RegisterPage.handleSubmit, RegisterPage.validateForm, hn,
                Errors.keys, htry, RegisterPage.catchBlock, RegisterPage.State.apply,
                navigationScheduled, loginNotified, hasSubmitError, Effect.isSetTimeout,
                Effect.isOnLogin, Errors.set, Errors.get, List.lookup]
    · have htry : RegisterPage.tryBlock t ROLES env st.formData =
          ([Effect.signUp st.formData.email st.formData.password,
            Effect.setErrors [(Key.submit, error.message)],
            Effect.setLoading false],
            Completion.returned) := by
        unfold RegisterPage.tryBlock; simp [h1, Errors.set]
      simp [RegisterPage.submit, RegisterPage.handleSubmit, RegisterPage.validateForm, hn,
        Errors.keys, htry, RegisterPage.catchBlock, RegisterPage.State.apply,
        navigationScheduled, loginNotified, hasSubmitError, Effect.isSetTimeout,
        Effect.isOnLogin, Errors.set, Errors.get, List.lookup]

/-- C11: for every valid form and every behaviour of the collaborators
(provider success, provider error, no user, or an exception thrown by the
provider, the profile store or `onLogin`), on the login page and on the
register page `handleSubmit` sets loading to true immediately before its only
call of the identity provider, never sets it to true again, ends with
`setLoading(false)`, and leaves loading false. -/
theorem handleSubmit_loading_bracket (t : Translate) (ROLE_PERMISSIONS : RolePermissions)
    (ROLES : Roles) (el : LoginPage.Env) (sl : LoginPage.State) (er : RegisterPage.Env)
    (sr : RegisterPage.State)
    (hemail : ¬ Blank sl.formData.email) (hpassword : sl.formData.password ≠ [])
    (hvalid : (RegisterPage.validateForm t sr.formData).2 = true) :
    ((∃ rest, LoginPage.handleSubmit t ROLE_PERMISSIONS el sl.formData =
          [Effect.preventDefault, Effect.setLoading true,
            Effect.signInWithPassword sl.formData.email sl.formData.password] ++ rest ++
          [Effect.setLoading false] ∧
        ∀ e ∈ rest, e ≠ Effect.setLoading true ∧ e.isProviderCall = false) ∧
      (LoginPage.submit t ROLE_PERMISSIONS el sl).loading = false) ∧
    ((∃ rest, RegisterPage.handleSubmit t ROLES er sr.formData =
          [Effect.preventDefault, Effect.setErrors [], Effect.setLoading true,
            Effect.signUp sr.formData.email sr.formData.password] ++ rest ++
          [Effect.setLoading false] ∧
        ∀ e ∈ rest, e ≠ Effect.setLoading true ∧ e.isProviderCall = false) ∧
      (RegisterPage.submit t ROLES er sr).loading = false) := by
  have hnl := LoginPage.newErrors_eq_nil t sl.formData hemail hpassword
  have hnr := RegisterPage.newErrors_eq_nil_of_valid t sr.formData hvalid
  obtain ⟨rl, hrl, hal⟩ := LoginPage.tryBlock_shape t ROLE_PERMISSIONS el sl.formData
  obtain ⟨rr, hrr, har⟩ := RegisterPage.tryBlock_shape_register t ROLES er sr.formData
  have htl : LoginPage.handleSubmit t ROLE_PERMISSIONS el sl.formData =
      [Effect.preventDefault, Effect.setLoading true,
        Effect.signInWithPassword sl.formData.email sl.formData.password] ++
      (rl ++ LoginPage.catchBlock t
        (LoginPage.tryBlock t ROLE_PERMISSIONS el sl.formData).2) ++
      [Effect.setLoading false] := by
    unfold LoginPage.handleSubmit
    simp [hnl, Errors.keys, hrl]
  have htr : RegisterPage.handleSubmit t ROLES er sr.formData =
      [Effect.preventDefault, Effect.setErrors [], Effect.setLoading true,
        Effect.signUp sr.formData.email sr.formData.password] ++
      (rr ++ RegisterPage.catchBlock t (RegisterPage.tryBlock t ROLES er sr.formData).2) ++
      [Effect.setLoading false] := by
    unfold RegisterPage.handleSubmit
    simp [RegisterPage.validateForm, hnr, Errors.keys, hrr]
  refine ⟨⟨⟨_, htl, hal⟩, ?_⟩, ⟨⟨_, htr, har⟩, ?_⟩⟩
  · unfold LoginPage.submit
    rw [htl, List.foldl_append]
    rfl
  · unfold RegisterPage.submit
    rw [htr, List.foldl_append]
    rfl

/-- C11 on the sample forms, with a provider that throws on sign-in and a
profile store that throws on insert. -/
theorem handleSubmit_loading_bracket_witness :
    (¬ Blank LoginPage.sampleForm.email ∧ LoginPage.sampleForm.password ≠ [] ∧
      (RegisterPage.validateForm sampleT RegisterPage.sampleForm).2 = true) ∧
    (LoginPage.submit sampleT sampleRolePermissions
        { signInWithPassword := fun _ _ => .error { value := js "Failed to fetch" }
          selectRole := fun _ => .ok none
          onLogin := fun _ => .ok () }
        { formData := LoginPage.sampleForm, errors := [], loading := false }).loading =
      false ∧
    (RegisterPage.submit sampleT sampleRoles
        { signUp := fun _ _ => .ok { user := some { id := js "U2" }, error := none }
          insertProfile := fun _ => .error { value := js "Failed to fetch" }
          onLogin := none }
        { formData := RegisterPage.sampleForm, errors := [], loading := false,
          successMessage := [] }).loading = false :=
  ⟨⟨by decide, by decide, by decide⟩,
    (handleSubmit_loading_bracket sampleT sampleRolePermissions sampleRoles
      { signInWithPassword := fun _ _ => .error { value := js "Failed to fetch" }
        selectRole := fun _ => .ok none
        onLogin := fun _ => .ok () }
      { formData := LoginPage.sampleForm, errors := [], loading := false }
      { signUp := fun _ _ => .ok { user := some { id := js "U2" }, error := none }
        insertProfile := fun _ => .error { value := js "Failed to fetch" }
        onLogin := none }
      { formData := RegisterPage.sampleForm, errors := [], loading := false,
        successMessage := [] }
      (by decide) (by decide) (by decide)).1.2,
    (handleSubmit_loading_bracket sampleT sampleRolePermissions sampleRoles
      { signInWithPassword := fun _ _ => .error { value := js "Failed to fetch" }
        selectRole := fun _ => .ok none
        onLogin := fun _ => .ok () }
      { formData := LoginPage.sampleForm, errors := [], loading := false }
      { signUp := fun _ _ => .ok { user := some { id := js "U2" }, error := none }
        insertProfile := fun _ => .error { value := js "Failed to fetch" }
        onLogin := none }
      { formData := RegisterPage.sampleForm, errors := [], loading := false,
        successMessage := [] }
      (by decide) (by decide) (by decide)).2.2⟩

/-- C12, as stated, fails. On the login page and on the register page, a valid
form for which the provider answers with neither a user nor an error ends with
no submit error and no navigation scheduled. On the register page without an
`onLogin` callback, a successful sign-up schedules the navigation although no
login notification is made. -/
theorem valid_submission_without_outcome :
    (¬ Blank LoginPage.sampleForm.email ∧ LoginPage.sampleForm.password ≠ [] ∧
      hasSubmitError (LoginPage.submit sampleT sampleRolePermissions
        (LoginPage.sampleEnv { user := none, error := none } none)
        { formData := LoginPage.sampleForm, errors := [], loading := false }).errors =
        false ∧
      navigationScheduled (LoginPage.handleSubmit sampleT sampleRolePermissions
        (LoginPage.sampleEnv { user := none, error := none } none) LoginPage.sampleForm) =
        false) ∧
    ((RegisterPage.validateForm sampleT RegisterPage.sampleForm).2 = true ∧
      hasSubmitError (RegisterPage.submit sampleT sampleRoles
        (RegisterPage.sampleEnv { user := none, error := none } true)
        { formData := RegisterPage.sampleForm, errors := [], loading := false,
          successMessage := [] }).errors = false ∧
      navigationScheduled (RegisterPage.handleSubmit sampleT sampleRoles
        (RegisterPage.sampleEnv { user := none, error := none } true)
        RegisterPage.sampleForm) = false) ∧
    (navigationScheduled (RegisterPage.handleSubmit sampleT sampleRoles
        (RegisterPage.sampleEnv { user := some { id := js "U2" }, error := none } false)
        RegisterPage.sampleForm) = true ∧
      loginNotified (RegisterPage.handleSubmit sampleT sampleRoles
        (RegisterPage.sampleEnv { user := some { id := js "U2" }, error := none } false)
        RegisterPage.sampleForm) = false) :=
  ⟨⟨by decide, by decide, by decide, by decide⟩, ⟨by decide, by decide, by decide⟩,
    ⟨by decide, by decide⟩⟩

/-- C12, amended: for every valid form, on the login page and on the register
page, and every behaviour of the collaborators. When the provider answers with
an error or a user, or throws, `handleSubmit` ends either in failure, with the
error mapping holding the single entry `submit` and no navigation scheduled, or
in success, with a navigation scheduled, no submit error set by the
submission, and the login notification made (on the register page exactly when
an `onLogin` callback is provided). When an exception was thrown, by the
provider, the profile store or `onLogin`, the submit error is the generic
message `register.error`. When the provider answers with neither a user nor an
error, `handleSubmit` only enters and leaves loading: no submit error is set
and no navigation is scheduled. -/
theorem handleSubmit_terminal_outcome (t : Translate) (ROLE_PERMISSIONS : RolePermissions)
    (ROLES : Roles) (el : LoginPage.Env) (sl : LoginPage.State) (er : RegisterPage.Env)
    (sr : RegisterPage.State)
    (hemail : ¬ Blank sl.formData.email) (hpassword : sl.formData.password ≠ [])
    (hvalid : (RegisterPage.validateForm t sr.formData).2 = true) :
    ((el.signInWithPassword sl.formData.email sl.formData.password =
          .ok { user := none, error := none } →
        LoginPage.handleSubmit t ROLE_PERMISSIONS el sl.formData =
          [Effect.preventDefault, Effect.setLoading true,
            Effect.signInWithPassword sl.formData.email sl.formData.password,
            Effect.setLoading false] ∧
        (LoginPage.submit t ROLE_PERMISSIONS el sl).errors = sl.errors ∧
        navigationScheduled (LoginPage.handleSubmit t ROLE_PERMISSIONS el sl.formData) =
          false ∧
        loginNotified (LoginPage.handleSubmit t ROLE_PERMISSIONS el sl.formData) = false) ∧
      (el.signInWithPassword sl.formData.email sl.formData.password ≠
          .ok { user := none, error := none } →
        (hasSubmitError (LoginPage.submit t ROLE_PERMISSIONS el sl).errors = true ∧
          navigationScheduled (LoginPage.handleSubmit t ROLE_PERMISSIONS el sl.formData) =
            false ∧
          ((LoginPage.submit t ROLE_PERMISSIONS el sl).errors =
              [(Key.submit, t "login.error")] ∨
            (LoginPage.submit t ROLE_PERMISSIONS el sl).errors =
              [(Key.submit, t "register.error")])) ∨
        (loginNotified (LoginPage.handleSubmit t ROLE_PERMISSIONS el sl.formData) = true ∧
          navigationScheduled (LoginPage.handleSubmit t ROLE_PERMISSIONS el sl.formData) =
            true ∧
          (LoginPage.submit t ROLE_PERMISSIONS el sl).errors = sl.errors)) ∧
      (∀ e, (LoginPage.tryBlock t ROLE_PERMISSIONS el sl.formData).2 = Completion.threw e →
        (LoginPage.submit t ROLE_PERMISSIONS el sl).errors =
          [(Key.submit, t "register.error")])) ∧
    ((er.signUp sr.formData.email sr.formData.password =
          .ok { user := none, error := none } →
        RegisterPage.handleSubmit t ROLES er sr.formData =
          [Effect.preventDefault, Effect.setErrors [], Effect.setLoading true,
            Effect.signUp sr.formData.email sr.formData.password, Effect.setLoading false] ∧
        (RegisterPage.submit t ROLES er sr).errors = [] ∧
        navigationScheduled (RegisterPage.handleSubmit t ROLES er sr.formData) = false ∧
        loginNotified (RegisterPage.handleSubmit t ROLES er sr.formData) = false) ∧
      (er.signUp sr.formData.email sr.formData.password ≠
          .ok { user := none, error := none } →
        (hasSubmitError (RegisterPage.submit t ROLES er sr).errors = true ∧
          navigationScheduled (RegisterPage.handleSubmit t ROLES er sr.formData) = false ∧
          ∃ m, (RegisterPage.submit t ROLES er sr).errors = [(Key.submit, m)]) ∨
        (navigationScheduled (RegisterPage.handleSubmit t ROLES er sr.formData) = true ∧
          loginNotified (RegisterPage.handleSubmit t ROLES er sr.formData) =
            er.onLogin.isSome ∧
          (RegisterPage.submit t ROLES er sr).errors = [] ∧
          (RegisterPage.submit t ROLES er sr).successMessage = t "register.success")) ∧
      (∀ e, (RegisterPage.tryBlock t ROLES er sr.formData).2 = Completion.threw e →
        (RegisterPage.submit t ROLES er sr).errors =
          [(Key.submit, t "register.error")])) := by
  constructor
  · exact LoginPage.outcome t ROLE_PERMISSIONS el sl hemail hpassword
  · exact RegisterPage.outcome_register t ROLES er sr hvalid

/-- C12, amended, on the sample forms: a login in which the provider answers
with the user `U1`, and a registration in which the provider answers with
neither a user nor an error, which sets no error. -/
theorem handleSubmit_terminal_outcome_witness :
    (¬ Blank LoginPage.sampleForm.email ∧ LoginPage.sampleForm.password ≠ [] ∧
      (RegisterPage.validateForm sampleT RegisterPage.sampleForm).2 = true) ∧
    (RegisterPage.submit sampleT sampleRoles
        (RegisterPage.sampleEnv { user := none, error := none } true)
        { formData := RegisterPage.sampleForm, errors := [], loading := false,
          successMessage := [] }).errors = [] :=
  ⟨⟨by decide, by decide, by decide⟩,
    ((handleSubmit_terminal_outcome sampleT sampleRolePermissions sampleRoles
      (LoginPage.sampleEnv { user := some { id := js "U1" }, error := none }
        (some { role := some (js "ADMIN") }))
      { formData := LoginPage.sampleForm, errors := [], loading := false }
      (RegisterPage.sampleEnv { user := none, error := none } true)
      { formData := RegisterPage.sampleForm, errors := [], loading := false,
        successMessage := [] }
      (by decide) (by decide) (by decide)).2.1 rfl).2.1⟩

end Topex
